import Mathlib

/-!
# PictureAnimation.js: a shallow embedding

The plugin decorates the host classes `Game_Interpreter`, `Game_Screen`,
`Game_Picture` and `Sprite_Picture`.  This file embeds the logical model
(`Game_Picture`), the argument helpers of the plugin command interface, and
the frame and file-name computations of `Sprite_Picture`.

Conventions of the embedding

* A JavaScript number is an exact integer or `NaN` (`JsNum`).  The only
  operations the model needs are `+`, `-`, `%`, `Math.abs`, `Math.max`,
  `Math.min` and `===`; on integers below `2^53` they are exact, and `%` by
  zero is the only source of `NaN`.
* `%` is the remainder of JavaScript: truncated, with the sign of the
  dividend (`Int.tmod`), and `NaN` for a zero divisor.
* A `TypeError` (reading a property of `null`) is the result `none`.
* Configuration fields (`_cellNumber`, `_frameNumber`, `_fadeDuration`,
  `_animationType`) hold integers; the counters `_cellCount`, `_frameCount`
  and `_prevCellCount` are results of `%` or of the `cell` getter and may be
  `NaN`.
* The host part of `Game_Picture.prototype.update` (move, tone, rotation)
  does not touch any field of the plugin and is left out.
* Bitmap sizes, frames and opacities are exact rationals; text lengths count
  characters of the Basic Multilingual Plane.

The definitions of `AccumulateState.js` and `StateRingIcon.js` follow those of
this plugin, each in a namespace of its own; the theorems come after all
definitions.
-/

namespace PictureAnimation

/-! ## JavaScript numbers -/

/-- A JavaScript number restricted to what the plugin computes with. -/
inductive JsNum where
  | int (i : Int)
  | nan
  deriving DecidableEq, Repr

namespace JsNum

/-- The JavaScript `a + b`. -/
def add : JsNum → JsNum → JsNum
  | int a, int b => int (a + b)
  | _, _ => nan

/-- The JavaScript `a - b`. -/
def sub : JsNum → JsNum → JsNum
  | int a, int b => int (a - b)
  | _, _ => nan

/-- The JavaScript `a % b`: truncated remainder, `NaN` when `b` is zero. -/
def mod : JsNum → JsNum → JsNum
  | int a, int b => if b = 0 then nan else int (Int.tmod a b)
  | _, _ => nan

/-- The function `Math.abs`. -/
def abs : JsNum → JsNum
  | int a => int |a|
  | nan => nan

/-- The function `Math.max` of two numbers. -/
def max : JsNum → JsNum → JsNum
  | int a, int b => int (Max.max a b)
  | _, _ => nan

/-- The function `Math.min` of two numbers. -/
def min : JsNum → JsNum → JsNum
  | int a, int b => int (Min.min a b)
  | _, _ => nan

/-- Strict equality `a === b`; `NaN` equals nothing, itself included. -/
def strictEq : JsNum → JsNum → Bool
  | int a, int b => decide (a = b)
  | _, _ => false

/-- Strict inequality `a !== b`. -/
def strictNe (a b : JsNum) : Bool := !strictEq a b

/-- Modelled from the spec: `Number.prototype.clamp` belongs to the host
engine core and is not in the plugin source; it is
`Math.min(Math.max(this, min), max)`. -/
def clamp (x lo hi : JsNum) : JsNum := min (max x lo) hi

end JsNum

open JsNum

/-- Array read `a[i]` followed by a numeric use: a missing element is
`undefined`, which every arithmetic operator turns into `NaN`. -/
def arrayGet (a : List Int) : JsNum → JsNum
  | int i => if 0 ≤ i then (match a.get? i.toNat with
                            | some x => int x
                            | none => nan) else nan
  | nan => nan

/-! ## Game_Picture -/

/-- The fields `initAnimation` adds to a `Game_Picture`. -/
structure Game_Picture where
  _cellNumber : Int
  _frameNumber : Int
  _cellCount : JsNum
  _frameCount : JsNum
  _animationType : Int
  _customArray : Option (List Int)
  _loopFlg : Bool
  _direction : String
  _fadeDuration : Int
  _fadeDurationCount : Int
  _prevCellCount : JsNum
  _animationFlg : Bool
  deriving DecidableEq, Repr

namespace Game_Picture

/-- `Game_Picture.prototype.initAnimation`: the state of a new picture. -/
def initAnimation : Game_Picture where
  _cellNumber := 1
  _frameNumber := 1
  _cellCount := int 0
  _frameCount := int 0
  _animationType := 0
  _customArray := none
  _loopFlg := false
  _direction := ""
  _fadeDuration := 0
  _fadeDurationCount := 0
  _prevCellCount := int 0
  _animationFlg := false

/-- `Game_Picture.prototype.direction`. -/
def direction (p : Game_Picture) : String := p._direction

/-- `Game_Picture.prototype.cellNumber`. -/
def cellNumber (p : Game_Picture) : Int := p._cellNumber

/-- `Game_Picture.prototype.prevCellCount`. -/
def prevCellCount (p : Game_Picture) : JsNum := p._prevCellCount

/-- `Game_Picture.prototype.isMulti`. -/
def isMulti (p : Game_Picture) : Bool :=
  p.direction == "連番" || p.direction == "N"

/-- The getter of the property `cell`: the resolved cell. -/
def cell (p : Game_Picture) : Option JsNum :=
  if p._animationType = 3 then
    match p._customArray with
    | none => none
    | some a => some (clamp (sub (arrayGet a p._cellCount) (int 1)) (int 0) (int (p._cellNumber - 1)))
  else if p._animationType = 2 then
    some (sub (int (p._cellNumber - 1)) (abs (sub p._cellCount (int (p._cellNumber - 1)))))
  else if p._animationType = 1 then
    some p._cellCount
  else
    some p._cellCount

/-- `Game_Picture.prototype.getCellNumber`: the effective cycle length. -/
def getCellNumber (p : Game_Picture) : Option Int :=
  if p._animationType = 3 then
    match p._customArray with
    | none => none
    | some a => some (a.length : Int)
  else if p._animationType = 2 then
    some ((p._cellNumber - 1) * 2)
  else if p._animationType = 1 then
    some p._cellNumber
  else
    some p._cellNumber

/-- The setter of the property `cell`: the assignment `picture.cell = value`. -/
def setCell (p : Game_Picture) (value : JsNum) : Option Game_Picture :=
  match p.getCellNumber with
  | none => none
  | some n =>
    let newCellCount := mod value (int n)
    if strictNe p._cellCount newCellCount then
      match p.cell with
      | none => none
      | some c =>
        some { p with _prevCellCount := c
                      _fadeDurationCount := p._fadeDuration
                      _cellCount := newCellCount }
    else
      some { p with _cellCount := newCellCount }

/-- `Game_Picture.prototype.isAnimation`. -/
def isAnimation (p : Game_Picture) : Bool := p._animationFlg

/-- `Game_Picture.prototype.isFading`. -/
def isFading (p : Game_Picture) : Bool := decide (p._fadeDurationCount ≠ 0)

/-- `Game_Picture.prototype.addCellCount`. -/
def addCellCount (p : Game_Picture) : Option Game_Picture :=
  p.setCell (add p._cellCount (int 1))

/-- `Game_Picture.prototype.updateAnimation`. -/
def updateAnimation (p : Game_Picture) : Option Game_Picture :=
  if !p.isAnimation then some p
  else
    let p1 := { p with _frameCount := mod (add p._frameCount (int 1)) (int p._frameNumber) }
    if strictEq p1._frameCount (int 0) then
      match p1.addCellCount with
      | none => none
      | some p2 =>
        if strictEq p2._cellCount (int 0) && !p2._loopFlg then
          some { p2 with _animationFlg := false }
        else some p2
    else some p1

/-- `Game_Picture.prototype.updateFading`. -/
def updateFading (p : Game_Picture) : Game_Picture :=
  { p with _fadeDurationCount := p._fadeDurationCount - 1 }

/-- `Game_Picture.prototype.update` (plugin part). -/
def update (p : Game_Picture) : Option Game_Picture :=
  if p.isFading then some p.updateFading
  else if p.isAnimation then p.updateAnimation
  else some p

/-- `Game_Picture.prototype.setAnimationInit`. -/
def setAnimationInit (p : Game_Picture) (cellNumber frameNumber : Int) (direction : String)
    (fadeDuration : Int) : Game_Picture :=
  { p with _cellNumber := cellNumber
           _frameNumber := frameNumber
           _frameCount := int 0
           _cellCount := int 0
           _direction := direction
           _fadeDuration := fadeDuration }

/-- `Game_Picture.prototype.startAnimation`. -/
def startAnimation (p : Game_Picture) (animationType : Int) (loopFlg : Bool)
    (customArray : Option (List Int)) : Game_Picture :=
  { p with _animationType := animationType
           _customArray := customArray
           _animationFlg := true
           _loopFlg := loopFlg }

/-- `Game_Picture.prototype.stopAnimation`. -/
def stopAnimation (p : Game_Picture) (forceFlg : Bool) : Game_Picture :=
  let p1 := { p with _loopFlg := false }
  if forceFlg then { p1 with _animationFlg := false } else p1

/-- The state after `k` host ticks: `k` calls of `update` in a row. -/
def updateN : Nat → Game_Picture → Option Game_Picture
  | 0, p => some p
  | k + 1, p => (p.update).bind (updateN k)

end Game_Picture

/-! ## Plugin command arguments -/

/-- Host services used by the argument helpers. -/
structure Host where
  /-- The method `convertEscapeCharacters` of
  `SceneManager._scene._windowLayer.children[0]`, when that window exists. -/
  window : Option (String → String)
  /-- The method `String.prototype.toUpperCase`. -/
  toUpperCase : String → String

/-- White space that `parseInt` skips (`StrWhiteSpaceChar`). -/
def isStrWhiteSpaceChar (c : Char) : Bool :=
  [0x09, 0x0A, 0x0B, 0x0C, 0x0D, 0x20, 0xA0, 0x1680, 0x2028, 0x2029, 0x202F, 0x205F,
    0x3000, 0xFEFF].contains c.toNat || (decide (0x2000 ≤ c.toNat) && decide (c.toNat ≤ 0x200A))

/-- The value of a decimal digit. -/
def digitValue (c : Char) : Option Nat :=
  if 48 ≤ c.toNat ∧ c.toNat ≤ 57 then some (c.toNat - 48) else none

/-- The value of the longest prefix of decimal digits; `acc` is `none` while
no digit has been read. -/
def parseDigits : List Char → Option Nat → Option Nat
  | [], acc => acc
  | c :: cs, acc =>
    match digitValue c with
    | none => acc
    | some d => parseDigits cs (some (10 * acc.getD 0 + d))

/-- The call `parseInt(s, 10)` on the characters of `s`: leading white space,
an optional sign, then the longest run of digits; `NaN` without a digit.
The value is exact, as in JavaScript below `2^53`. -/
def parseIntChars (s : List Char) : JsNum :=
  let t := s.dropWhile isStrWhiteSpaceChar
  let signed : Int × List Char :=
    match t with
    | '-' :: r => (-1, r)
    | '+' :: r => (1, r)
    | _ => (1, t)
  match parseDigits signed.2 none with
  | none => nan
  | some n => int (signed.1 * (n : Int))

/-- The call `parseInt(s, 10)`. -/
def parseInt (s : String) : JsNum := parseIntChars s.data

/-- The expression `x || 0` on a number: `NaN` and zero are falsy. -/
def orZero : JsNum → Int
  | int i => i
  | nan => 0

/-- Modelled from the spec: `Number.prototype.clamp` of the host engine core,
`Math.min(Math.max(this, min), max)`, on an integer receiver; a bound `none`
is `-Infinity` as `min` and `Infinity` as `max`. -/
def clampBounds (x : Int) (min max : Option Int) : Int :=
  let y := match min with
    | none => x
    | some m => Max.max x m
  match max with
  | none => y
  | some m => Min.min y m

/-- The local function `convertEscapeCharacters`; `none` is a missing
(`undefined`) argument. -/
def convertEscapeCharacters (h : Host) (text : Option String) : String :=
  let text := text.getD ""
  match h.window with
  | some conv => conv text
  | none => text

/-- The local function `getArgString`. -/
def getArgString (h : Host) (arg : Option String) (upperFlg : Bool) : String :=
  let arg := convertEscapeCharacters h arg
  if upperFlg then h.toUpperCase arg else arg

/-- The local function `getArgNumber`, called as `getArgNumber(arg, ...rest)`:
`arguments.length` is `1 + rest.length`, `min` is `rest[0]` and `max` is
`rest[1]`. -/
def getArgNumber (h : Host) (arg : Option String) (rest : List Int) : Int :=
  let argumentsLength := 1 + rest.length
  let min : Option Int := if argumentsLength ≤ 2 then none else rest.get? 0
  let max : Option Int := if argumentsLength ≤ 3 then none else rest.get? 1
  clampBounds (orZero (parseInt (convertEscapeCharacters h arg))) min max

/-- The method `String.prototype.split` with a one-character separator. -/
def splitChars (sep : Char) : List Char → List (List Char)
  | [] => [[]]
  | c :: cs =>
    if c = sep then [] :: splitChars sep cs
    else
      match splitChars sep cs with
      | [] => [[c]]
      | w :: ws => (c :: w) :: ws

/-- The local function `getArgArrayString`. -/
def getArgArrayString (h : Host) (args : Option String) (upperFlg : Bool) : List (List Char) :=
  splitChars ',' (getArgString h args upperFlg).data

/-- The local function `getArgArrayNumber`, called as
`getArgArrayNumber(args, ...rest)`. -/
def getArgArrayNumber (h : Host) (args : Option String) (rest : List Int) : List Int :=
  let values := getArgArrayString h args false
  let argumentsLength := 1 + rest.length
  let min : Option Int := if argumentsLength < 2 then none else rest.get? 0
  let max : Option Int := if argumentsLength < 3 then none else rest.get? 1
  values.map (fun v => clampBounds (orZero (parseIntChars v)) min max)

/-- What the branch `PA_INIT` hands to `$gameScreen.setPicturesAnimation`. -/
structure PaInit where
  cellNumber : Int
  frameNumber : Int
  direction : String
  fadeDuration : Int
  deriving DecidableEq, Repr

/-- Branch `PA_INIT` of `pluginCommandPictureAnimation`. -/
def pluginCommandPictureAnimation_PA_INIT (h : Host) (args : List String) : PaInit :=
  let cellNumber := getArgNumber h (args.get? 0) [1, 200]
  let frameNumber := getArgNumber h (args.get? 1) [1, 9999]
  let direction :=
    let d := getArgString h (args.get? 2) true
    if d = "" then "縦" else d
  let fadeDuration := getArgNumber h (args.get? 3) [0, 9999]
  { cellNumber := cellNumber, frameNumber := frameNumber, direction := direction,
    fadeDuration := fadeDuration }

/-- Branches `PA_START` (`loopFlg = false`) and `PA_START_LOOP`
(`loopFlg = true`) of `pluginCommandPictureAnimation`, on the picture the
command looked up. -/
def pluginCommandPictureAnimation_PA_START (h : Host) (args : List String) (loopFlg : Bool)
    (picture : Game_Picture) : Game_Picture :=
  let animationType := getArgNumber h (args.get? 1) [1, 3]
  let customArray := getArgArrayNumber h (args.get? 2) [1, 200]
  picture.startAnimation animationType loopFlg (some customArray)

/-- The effect of a cell command: the frames the interpreter waits, if any,
and the picture. -/
structure CellCommandResult where
  wait : Option Int
  picture : Game_Picture
  deriving DecidableEq, Repr

/-- Branch `PA_SET_CELL` of `pluginCommandPictureAnimation`, on the picture
the command looked up. -/
def pluginCommandPictureAnimation_PA_SET_CELL (h : Host) (args : List String)
    (picture : Game_Picture) : Option CellCommandResult :=
  let cellNumber := getArgNumber h (args.get? 1) [1, 200]
  let wait := getArgString h (args.get? 2) false
  let waiting : Option Int :=
    if wait = "ウェイトあり" ∨ h.toUpperCase wait = "WAIT" then some picture._fadeDuration else none
  match picture.setCell (int cellNumber) with
  | none => none
  | some p => some { wait := waiting, picture := p }

/-- Branch `PA_PROG_CELL` of `pluginCommandPictureAnimation`, on the picture
the command looked up. -/
def pluginCommandPictureAnimation_PA_PROG_CELL (h : Host) (args : List String)
    (picture : Game_Picture) : Option CellCommandResult :=
  let wait := getArgString h (args.get? 1) false
  let waiting : Option Int :=
    if wait = "ウェイトあり" ∨ h.toUpperCase wait = "WAIT" then some picture._fadeDuration else none
  match picture.addCellCount with
  | none => none
  | some p => some { wait := waiting, picture := p }

/-- A host without a window whose `toUpperCase` maps the ASCII letters. -/
def plainHost : Host where
  window := none
  toUpperCase := fun s => String.mk (s.data.map Char.toUpper)

/-! ## Cross-fade opacity and Sprite_Picture -/

/-- `Game_Picture.prototype.prevCellOpacity`, over exact rationals; `opacity`
is the value of the host method `opacity()`. -/
def Game_Picture.prevCellOpacity (p : Game_Picture) (opacity : ℚ) : ℚ :=
  if p._fadeDuration = 0 then 0
  else opacity / (p._fadeDuration : ℚ) * (p._fadeDurationCount : ℚ)

/-- A bitmap as far as the plugin reads it: its size. -/
structure Bitmap where
  width : ℚ
  height : ℚ
  deriving DecidableEq

/-- The arguments of the last `setFrame(x, y, width, height)` of a sprite. -/
structure Frame where
  x : ℚ
  y : ℚ
  width : ℚ
  height : ℚ
  deriving DecidableEq

/-- A sprite: its bitmap (`none` is `null`) and its frame. -/
structure Sprite where
  bitmap : Option Bitmap
  frame : Frame
  deriving DecidableEq

/-- `Sprite_Picture.prototype.updateAnimation(sprite, cellCount)` over exact
rationals, for an integer cell index.  `direction` and `cellNumber` are read
from the picture, `bitmaps` is `this._bitmaps` and `thisBitmap` is
`this.bitmap`; `none` is a `TypeError` (a property of `undefined` or `null`
is read).  A division by `cellNumber = 0`, which is `Infinity` or `NaN` in
JavaScript, is outside the model. -/
def Sprite_Picture.updateAnimation (direction : String) (cellNumber : Int)
    (bitmaps : List Bitmap) (thisBitmap : Option Bitmap) (sprite : Sprite) (cellCount : Int) :
    Option Sprite :=
  if direction = "連番" ∨ direction = "N" then
    if 0 ≤ cellCount then
      match bitmaps.get? cellCount.toNat with
      | none => none
      | some b => some { bitmap := some b, frame := ⟨0, 0, b.width, b.height⟩ }
    else none
  else if direction = "縦" ∨ direction = "V" then
    match sprite.bitmap with
    | none => none
    | some b =>
      let height := b.height / (cellNumber : ℚ)
      let y := (cellCount : ℚ) * height
      some { sprite with frame := ⟨0, y, b.width, height⟩ }
  else if direction = "横" ∨ direction = "H" then
    match sprite.bitmap, thisBitmap with
    | some b, some tb =>
      let width := b.width / (cellNumber : ℚ)
      let x := (cellCount : ℚ) * width
      some { sprite with frame := ⟨x, 0, width, tb.height⟩ }
    | _, _ => none
  else some sprite

/-- The method `Number.prototype.toString` on an integer. -/
def numberToString (z : Int) : List Char :=
  if z < 0 then '-' :: Nat.toDigits 10 z.natAbs else Nat.toDigits 10 z.toNat

/-- Modelled from the spec: `padZero` belongs to the host engine core and is
not in the plugin source; it prepends `'0'` while the text is shorter than
`length` (the zero-padded index of the spec). -/
def padZero (s : List Char) (length : Nat) : List Char :=
  List.replicate (length - s.length) '0' ++ s

/-- Where an entry of `this._bitmaps` comes from: `this.bitmap`, or
`ImageManager.loadPicture(filename)`. -/
inductive BitmapSource where
  | original
  | picture (filename : String)
  deriving DecidableEq, Repr

/-- The file name built in the loop of `loadAnimationBitmap` for index `i`.
Lengths count characters of the Basic Multilingual Plane. -/
def Sprite_Picture.animationFilename (pictureName : String) (cellNumber : Int) (i : Nat) :
    String :=
  let cellDigit := (numberToString cellNumber).length
  String.mk (pictureName.data.take (pictureName.data.length - cellDigit)
    ++ padZero (numberToString (i : Int)) cellDigit)

/-- `Sprite_Picture.prototype.loadAnimationBitmap`: the array `this._bitmaps`
it builds from `this._pictureName` and the picture's `cellNumber()`. -/
def Sprite_Picture.loadAnimationBitmap (pictureName : String) (cellNumber : Int) :
    List BitmapSource :=
  BitmapSource.original ::
    (List.range (cellNumber.toNat - 1)).map
      (fun k => BitmapSource.picture (Sprite_Picture.animationFilename pictureName cellNumber (k + 1)))

/-- The file name of cell `i` in the words of the specification: the trailing
`w` characters of the name are replaced by `i` zero-padded to `w` digits,
`w` the number of decimal digits of `cellCount - 1`. -/
def specSequentialFilename (pictureName : String) (cellCount : Int) (i : Nat) : String :=
  let w := (numberToString (cellCount - 1)).length
  String.mk (pictureName.data.take (pictureName.data.length - w)
    ++ padZero (numberToString (i : Int)) w)

/-! ## Game_Screen -/

/-- The state the plugin keeps on `Game_Screen`, with the pictures of the
screen by real picture id.  The four fields `_paCellNumber`, `_paFrameNumber`,
`_paDirection` and `_paFadeDuration` are always written together; `_pa` is
`none` while they are still `undefined`, before the first
`setPicturesAnimation`. -/
structure Game_Screen where
  _pa : Option PaInit
  _pictures : Nat → Option Game_Picture

namespace Game_Screen

/-- `Game_Screen.prototype.setPicturesAnimation`. -/
def setPicturesAnimation (s : Game_Screen) (cellNumber frameNumber : Int) (direction : String)
    (fadeDuration : Int) : Game_Screen :=
  { s with _pa := some { cellNumber := cellNumber, frameNumber := frameNumber,
                         direction := direction, fadeDuration := fadeDuration } }

/-- `Game_Screen.prototype.clearPicturesAnimation`. -/
def clearPicturesAnimation (s : Game_Screen) : Game_Screen :=
  { s with _pa := some { cellNumber := 1, frameNumber := 1, direction := "", fadeDuration := 0 } }

/-- Modelled from the spec: the host method `Game_Screen.prototype.showPicture`
is not in the plugin source; it creates a new `Game_Picture`, whose
`initialize` runs `initAnimation`, and stores it under the real picture id
(the overlay and its playback state are created when it is shown). -/
def hostShowPicture (s : Game_Screen) (realPictureId : Nat) : Game_Screen :=
  { s with _pictures := fun k =>
      if k = realPictureId then some Game_Picture.initAnimation else s._pictures k }

/-- `Game_Screen.prototype.showPicture` of the plugin, for the real picture id
`this.realPictureId(pictureId)`; `undefined > 1` is false. -/
def showPicture (s : Game_Screen) (realPictureId : Nat) : Game_Screen :=
  let s1 := s.hostShowPicture realPictureId
  match s1._pa with
  | none => s1
  | some pa =>
    if pa.cellNumber > 1 then
      let init : Game_Picture → Game_Picture := fun p =>
        p.setAnimationInit pa.cellNumber pa.frameNumber pa.direction pa.fadeDuration
      let pictures : Nat → Option Game_Picture := fun k =>
        if k = realPictureId then (s1._pictures k).map init else s1._pictures k
      clearPicturesAnimation { s1 with _pictures := pictures }
    else s1

end Game_Screen

/-! ## Sample pictures and run predicate -/

/-- A shown picture with four cells in Forward mode. -/
def forwardPicture4 : Game_Picture :=
  (Game_Picture.initAnimation.setAnimationInit 4 10 "V" 0).startAnimation 1 true none

/-- A Forward picture with four cells, three frames per cell and a fade of two
frames, right after `PA_START_LOOP`. -/
def startedPicture432 : Game_Picture :=
  (Game_Picture.initAnimation.setAnimationInit 4 3 "V" 2).startAnimation 1 true none

/-- The picture `startedPicture432` three ticks later: cell 1, fade just armed. -/
def fadingPicture432 : Game_Picture :=
  { startedPicture432 with _cellCount := int 1, _fadeDurationCount := 2 }

/-- A Custom picture whose pattern `[1, 1, 2]` repeats a cell; fade of five
frames, raw counter 0. -/
def customPicture112 : Game_Picture :=
  (Game_Picture.initAnimation.setAnimationInit 4 10 "V" 5).startAnimation 3 true
    (some [1, 1, 2])

/-- A picture shown without `PA_INIT` (one cell) after `PA_START 1 2`. -/
def pingPongPicture1 : Game_Picture :=
  pluginCommandPictureAnimation_PA_START plainHost ["1", "2"] false Game_Picture.initAnimation

/-- A Forward picture with four cells that advances on every tick, right after
`PA_START_LOOP 1 1`. -/
def startedPicture410 : Game_Picture :=
  (Game_Picture.initAnimation.setAnimationInit 4 1 "V" 0).startAnimation 1 true none

/-- A looping Forward picture with four cells, two frames per cell and a fade
of one frame, at raw counter 2. -/
def loopingPicture421 : Game_Picture :=
  { (Game_Picture.initAnimation.setAnimationInit 4 2 "V" 1).startAnimation 1 true none with
    _cellCount := int 2, _prevCellCount := int 1 }

/-- Playback in progress in any mode: an animating picture whose effective
cycle length is `L`, with `f` frames per cell and fade duration `d`, at raw
counter `c`, with `e` frames of fade left and frame counter `i`. -/
structure CycleRun (L f d : Nat) (loop : Bool) (p : Game_Picture) (c e i : Nat) : Prop where
  anim : p._animationFlg = true
  looping : p._loopFlg = loop
  cycle : p.getCellNumber = some (L : Int)
  frames : p._frameNumber = (f : Int)
  duration : p._fadeDuration = (d : Int)
  count : p._cellCount = int (c : Int)
  frame : p._frameCount = int (i : Int)
  fading : p._fadeDurationCount = (e : Int)

/-- The fields that `update` and the assignment to `cell` never write:
configuration, play mode and pattern. -/
def SameSetup (p q : Game_Picture) : Prop :=
  q._cellNumber = p._cellNumber ∧ q._frameNumber = p._frameNumber ∧
  q._animationType = p._animationType ∧ q._customArray = p._customArray ∧
  q._direction = p._direction ∧ q._fadeDuration = p._fadeDuration

/-- Forward playback in progress: an animating picture of type 1 with `n`
cells, `f` frames per cell and fade duration `d`, at raw counter `c`, with
`e` frames of fade left and frame counter `i`. -/
structure ForwardRun (n f d : Nat) (loop : Bool) (p : Game_Picture) (c e i : Nat) : Prop where
  anim : p._animationFlg = true
  type : p._animationType = 1
  looping : p._loopFlg = loop
  cells : p._cellNumber = (n : Int)
  frames : p._frameNumber = (f : Int)
  duration : p._fadeDuration = (d : Int)
  count : p._cellCount = int (c : Int)
  frame : p._frameCount = int (i : Int)
  fading : p._fadeDurationCount = (e : Int)

end PictureAnimation

/-!
# AccumulateState.js

Rates and accumulations are JavaScript numbers: a finite value, `Infinity`,
`-Infinity` or `NaN`.  A finite value is kept as an exact rational, so the
rounding and the overflow of finite arithmetic are left out, and the sign of
a zero is not told apart.  The maps `_stateAccumulations` and `_stateImmunity`
are functions from state ids, `none` for a missing key;
`clearStateAccumulationsIfNeed`, which only creates the two maps, is implicit.
Host code (`addState`, `stateRate`, `lukEffectRate`, the note tags of the
database) is taken as a parameter; the values of the database and the rates
of the host are finite.
-/

namespace AccumulateState

/-- A JavaScript number: finite, `Infinity`, `-Infinity` or `NaN`. -/
inductive JsReal where
  | fin (q : ℚ)
  | posInf
  | negInf
  | nan
  deriving DecidableEq

namespace JsReal

/-- `Number.isNaN(x)`. -/
def isNaN : JsReal → Bool
  | nan => true
  | _ => false

/-- The product `x * y`: `Infinity * 0` is `NaN`. -/
def mul : JsReal → JsReal → JsReal
  | nan, _ => nan
  | _, nan => nan
  | fin a, fin b => fin (a * b)
  | fin a, posInf => if a = 0 then nan else if 0 < a then posInf else negInf
  | fin a, negInf => if a = 0 then nan else if 0 < a then negInf else posInf
  | posInf, fin b => if b = 0 then nan else if 0 < b then posInf else negInf
  | negInf, fin b => if b = 0 then nan else if 0 < b then negInf else posInf
  | posInf, posInf => posInf
  | posInf, negInf => negInf
  | negInf, posInf => negInf
  | negInf, negInf => posInf

/-- The sum `x + y`: `Infinity + -Infinity` is `NaN`. -/
def add : JsReal → JsReal → JsReal
  | nan, _ => nan
  | _, nan => nan
  | fin a, fin b => fin (a + b)
  | posInf, negInf => nan
  | negInf, posInf => nan
  | posInf, _ => posInf
  | _, posInf => posInf
  | negInf, _ => negInf
  | _, negInf => negInf

/-- The quotient `a / b` of two finite numbers, a zero divisor being `+0`. -/
def divFin (a b : ℚ) : JsReal :=
  if b = 0 then (if a = 0 then nan else if 0 < a then posInf else negInf) else fin (a / b)

/-- The comparison `x <= y`, false when a side is `NaN`. -/
def le : JsReal → JsReal → Bool
  | nan, _ => false
  | _, nan => false
  | negInf, _ => true
  | _, posInf => true
  | fin a, fin b => decide (a ≤ b)
  | posInf, _ => false
  | _, negInf => false

/-- The comparison `x >= y`, false when a side is `NaN`. -/
def ge (x y : JsReal) : Bool := le y x

/-- `Math.max(x, y)`: `NaN` when an argument is `NaN`. -/
def max (x y : JsReal) : JsReal :=
  if x.isNaN || y.isNaN then nan else if le x y then y else x

/-- `Math.min(x, y)`: `NaN` when an argument is `NaN`. -/
def min (x y : JsReal) : JsReal :=
  if x.isNaN || y.isNaN then nan else if le x y then x else y

/-- The expression `x || 0` for a map entry `x`: 0 when the entry is missing,
0 or `NaN`. -/
def orZero : Option JsReal → JsReal
  | none => fin 0
  | some nan => fin 0
  | some x => x

end JsReal

open JsReal (fin posInf negInf nan)

/-- The plugin parameters that the rate computation reads.  A non-empty
`AccumulateFormula` is given by what `eval` does with it for the values of
`a` and `b`: `none` when it throws, otherwise the number that its result is
or is converted to by the multiplication that follows (`undefined` and a text
that is no numeral become `NaN`).  A result whose conversion itself throws (a
`BigInt`, a `Symbol`) is left out. -/
structure Param where
  AccumulateFormula : Option (ℚ → ℚ → Option JsReal)
  LuckAdjust : Bool
  CertainHit : Bool
  ImmunityRate : ℚ

/-- A battler: the states it is affected by (host field `_states`) and the two
maps of the plugin. -/
structure Game_Battler where
  _states : List Nat
  _stateAccumulations : Nat → Option JsReal
  _stateImmunity : Nat → Option Nat

/-- Host services on battlers and the database. -/
structure BattleHost where
  /-- Whether the note of `$dataStates[stateId]` carries the accumulate tag. -/
  accumulateMeta : Nat → Bool
  /-- The host method `Game_Battler.prototype.addState`. -/
  addState : Game_Battler → Nat → Game_Battler
  /-- The host method `stateRate` of a target. -/
  stateRate : Game_Battler → Nat → ℚ
  /-- The host method `Game_Action.prototype.itemEffectAddNormalState`, with
  the success flag it sets. -/
  itemEffectAddNormalState : Game_Battler → Nat → ℚ → Game_Battler × Bool
  /-- The host method `Game_Action.prototype.itemEffectAddAttackState`. -/
  itemEffectAddAttackState : Game_Battler → ℚ → Game_Battler × Bool

/-- What the plugin reads from an action and its subject. -/
structure Game_Action where
  isCertainHit : Bool
  lukEffectRate : Game_Battler → ℚ
  subjectAttackStates : List Nat
  subjectAttackStatesRate : Nat → ℚ

/-- Modelled from the spec: `Number.prototype.clamp` of the host engine core,
`Math.min(Math.max(this, min), max)`. -/
def clamp (x lo hi : JsReal) : JsReal := JsReal.min (JsReal.max x lo) hi

/-- `BattleManager.isStateAccumulate`. -/
def isStateAccumulate (h : BattleHost) (stateId : Nat) : Bool :=
  decide (stateId > 0) && h.accumulateMeta stateId

/-- The host method `isStateAffected`: `this._states.includes(stateId)`. -/
def isStateAffected (b : Game_Battler) (stateId : Nat) : Bool :=
  b._states.contains stateId

/-- The assignment `this._stateAccumulations[stateId] = total`. -/
def setAccumulation (b : Game_Battler) (stateId : Nat) (total : JsReal) : Game_Battler :=
  { b with _stateAccumulations := fun k =>
      if k = stateId then some total else b._stateAccumulations k }

/-- The assignment
`this._stateImmunity[stateId] = (this._stateImmunity[stateId] || 0) + 1`. -/
def countActivation (b : Game_Battler) (stateId : Nat) : Game_Battler :=
  { b with _stateImmunity := fun k =>
      if k = stateId then some ((b._stateImmunity stateId).getD 0 + 1) else b._stateImmunity k }

/-- `Game_Battler.prototype.accumulateState`: the battler afterwards and the
returned flag. -/
def accumulateState (h : BattleHost) (b : Game_Battler) (stateId : Nat) (value : JsReal) :
    Game_Battler × Bool :=
  if isStateAccumulate h stateId then
    let total := JsReal.add (JsReal.orZero (b._stateAccumulations stateId)) value
    let b1 := setAccumulation b stateId total
    if !isStateAffected b1 stateId && JsReal.ge total (fin 1) then
      (countActivation (h.addState b1 stateId) stateId, true)
    else (b1, false)
  else (b, false)

/-- `Game_BattlerBase.prototype.getStateImmunity`. -/
def getStateImmunity (param : Param) (b : Game_Battler) (stateId : Nat) : ℚ :=
  match b._stateImmunity stateId with
  | none => 0
  | some count => (count : ℚ) * param.ImmunityRate / 100

/-- `Game_BattlerBase.prototype.getStateAccumulation`. -/
def getStateAccumulation (b : Game_Battler) (stateId : Nat) : JsReal :=
  JsReal.orZero (b._stateAccumulations stateId)

/-- `Game_BattlerBase.prototype.attackStates(accumulateFlg)` of the subject of
an action. -/
def attackStates (h : BattleHost) (action : Game_Action) (accumulateFlg : Bool) : List Nat :=
  action.subjectAttackStates.filter (fun stateId => isStateAccumulate h stateId == accumulateFlg)

/-- The first part of `applyResistanceForAccumulateState`: the value of
`effectValue` after the formula and the luck factor, before the immunity
factor is applied. -/
def rateBeforeImmunity (param : Param) (h : BattleHost) (action : Game_Action) (effectValue : ℚ)
    (target : Game_Battler) (stateId : Nat) : JsReal :=
  let afterFormula : JsReal :=
    match param.AccumulateFormula with
    | some formula =>
      match formula effectValue (h.stateRate target stateId) with
      | some result => result
      | none => fin effectValue
    | none => JsReal.mul (fin effectValue) (fin (h.stateRate target stateId))
  if param.LuckAdjust then JsReal.mul afterFormula (fin (action.lukEffectRate target))
  else afterFormula

/-- `Game_Action.prototype.applyResistanceForAccumulateState`. -/
def applyResistanceForAccumulateState (param : Param) (h : BattleHost) (action : Game_Action)
    (effectValue : ℚ) (target : Game_Battler) (stateId : Nat) : JsReal :=
  clamp (JsReal.mul (rateBeforeImmunity param h action effectValue target stateId)
    (fin (1 - getStateImmunity param target stateId))) (fin 0) (fin 1)

/-- `Game_Action.prototype.itemEffectAddNormalState` for the effect with
`dataId` and `value1`: the target afterwards and whether `makeSuccess` ran. -/
def itemEffectAddNormalState (param : Param) (h : BattleHost) (action : Game_Action)
    (target : Game_Battler) (dataId : Nat) (value1 : ℚ) : Game_Battler × Bool :=
  if isStateAccumulate h dataId then
    let accumulation : JsReal :=
      if !action.isCertainHit || !param.CertainHit then
        applyResistanceForAccumulateState param h action value1 target dataId
      else fin value1
    accumulateState h target dataId accumulation
  else h.itemEffectAddNormalState target dataId value1

/-- The body of the `forEach` in `itemEffectAddAttackState` for one
accumulate-type attack state. -/
def accumulateAttackState (param : Param) (h : BattleHost) (action : Game_Action) (value1 : ℚ)
    (acc : Game_Battler × Bool) (stateId : Nat) : Game_Battler × Bool :=
  let accumulation := value1 * action.subjectAttackStatesRate stateId
  let accumulation := applyResistanceForAccumulateState param h action accumulation acc.1 stateId
  let r := accumulateState h acc.1 stateId accumulation
  (r.1, acc.2 || r.2)

/-- `Game_Action.prototype.itemEffectAddAttackState` for the effect with
`value1`: the target afterwards and whether `makeSuccess` ran. -/
def itemEffectAddAttackState (param : Param) (h : BattleHost) (action : Game_Action)
    (target : Game_Battler) (value1 : ℚ) : Game_Battler × Bool :=
  (attackStates h action true).foldl (accumulateAttackState param h action value1)
    (h.itemEffectAddAttackState target value1)

/-- A host in which state 5 is accumulate-type, `addState` appends the state,
every state rate is 1 and the host effects do nothing. -/
def sampleHost : BattleHost where
  accumulateMeta := fun stateId => stateId == 5
  addState := fun b stateId => { b with _states := b._states ++ [stateId] }
  stateRate := fun _ _ => 1
  itemEffectAddNormalState := fun b _ _ => (b, false)
  itemEffectAddAttackState := fun b _ => (b, false)

/-- The host `sampleHost` with every state rate 0: the targets carry the
trait "state rate 0%". -/
def barredHost : BattleHost :=
  { sampleHost with stateRate := fun _ _ => 0 }

/-- The default parameters with an immunity rate of 100. -/
def sampleParam : Param where
  AccumulateFormula := none
  LuckAdjust := true
  CertainHit := true
  ImmunityRate := 100

/-- The parameters `sampleParam` with the formula `a / b`. -/
def quotientParam : Param :=
  { sampleParam with AccumulateFormula := some (fun a b => some (JsReal.divFin a b)) }

/-- A battler without states, accumulations and activations. -/
def freshBattler : Game_Battler where
  _states := []
  _stateAccumulations := fun _ => none
  _stateImmunity := fun _ => none

/-- A battler that has accumulated 0.9 of state 5. -/
def chargedBattler : Game_Battler where
  _states := []
  _stateAccumulations := fun stateId => if stateId = 5 then some (fin (9 / 10)) else none
  _stateImmunity := fun _ => none

/-- A battler on which state 5 was activated once and removed again. -/
def immuneBattler : Game_Battler where
  _states := []
  _stateAccumulations := fun _ => none
  _stateImmunity := fun stateId => if stateId = 5 then some 1 else none

/-- A certain-hit action without attack states. -/
def certainHitAction : Game_Action where
  isCertainHit := true
  lukEffectRate := fun _ => 1
  subjectAttackStates := []
  subjectAttackStatesRate := fun _ => 1

/-- An action that is not a certain hit, with attack state 5 at rate 1. -/
def normalAction : Game_Action where
  isCertainHit := false
  lukEffectRate := fun _ => 1
  subjectAttackStates := [5]
  subjectAttackStatesRate := fun _ => 1

end AccumulateState

/-!
# StateRingIcon.js

The icon sprites of a `Sprite_StateIcon`.  A child sprite is identified by its
`spriteId`; the children of the parent are kept as the list of these ids.
-/

namespace StateRingIcon

/-- A `Sprite_StateIconChild`: its identity and the icon it shows. -/
structure Sprite_StateIconChild where
  spriteId : Nat
  _iconIndex : Int
  deriving DecidableEq, Repr

/-- A `Sprite_StateIcon`: the icons, the icon sprites, the ids of its
children and the next value of the host counter of sprite ids. -/
structure Sprite_StateIcon where
  _icons : List Int
  _iconsSprites : List Sprite_StateIconChild
  children : List Nat
  spriteCounter : Nat
  deriving DecidableEq, Repr

namespace Sprite_StateIcon

/-- `Sprite_StateIcon.prototype.makeNewIcon`; the new child starts with the
icon index 0 of the host `initMembers`.  The assignment
`this._iconsSprites[index] = iconSprite` replaces an element or, at
`index = length`, appends one. -/
def makeNewIcon (s : Sprite_StateIcon) (index : Nat) : Sprite_StateIcon :=
  let iconSprite : Sprite_StateIconChild := { spriteId := s.spriteCounter, _iconIndex := 0 }
  { s with _iconsSprites :=
             if index < s._iconsSprites.length then s._iconsSprites.set index iconSprite
             else s._iconsSprites ++ [iconSprite]
           children := s.children ++ [iconSprite.spriteId]
           spriteCounter := s.spriteCounter + 1 }

/-- The call `this._iconsSprites[index].setIconIndex(icon)`. -/
def setIconIndex (s : Sprite_StateIcon) (index : Nat) (icon : Int) : Sprite_StateIcon :=
  match s._iconsSprites.get? index with
  | none => s
  | some sprite => { s with _iconsSprites := s._iconsSprites.set index { sprite with _iconIndex := icon } }

/-- The `forEach` of `setupRingIcon` over the icons from position `index` on. -/
def setupIcons : List Int → Nat → Sprite_StateIcon → Sprite_StateIcon
  | [], _, s => s
  | icon :: icons, index, s =>
    let s1 := if (s._iconsSprites.get? index).isNone then s.makeNewIcon index else s
    setupIcons icons (index + 1) (s1.setIconIndex index icon)

/-- `Sprite_StateIcon.prototype.removeIcon`. -/
def removeIcon (s : Sprite_StateIcon) (index : Nat) : Sprite_StateIcon :=
  match s._iconsSprites.get? index with
  | none => s
  | some sprite =>
    { s with children := s.children.filter (fun id => id != sprite.spriteId)
             _iconsSprites := s._iconsSprites.eraseIdx index }

/-- The `for` loop of `setupRingIcon` from the counter value `i` on; each pass
tests `i < this._iconsSprites.length` on the current array.  `fuel` bounds the
number of passes. -/
def removeSurplus : Nat → Nat → Sprite_StateIcon → Sprite_StateIcon
  | 0, _, s => s
  | fuel + 1, i, s =>
    if i < s._iconsSprites.length then removeSurplus fuel (i + 1) (s.removeIcon i) else s

/-- `Sprite_StateIcon.prototype.setupRingIcon`; the loop runs at most once per
icon sprite. -/
def setupRingIcon (s : Sprite_StateIcon) : Sprite_StateIcon :=
  let s1 := setupIcons s._icons 0 s
  removeSurplus s1._iconsSprites.length s1._icons.length s1

end Sprite_StateIcon

/-- Three icon sprites that show the icons 1, 2 and 3, after the icon list
shrank to `[1]`. -/
def shrunkIcons : Sprite_StateIcon where
  _icons := [1]
  _iconsSprites := [⟨0, 1⟩, ⟨1, 2⟩, ⟨2, 3⟩]
  children := [0, 1, 2]
  spriteCounter := 3

end StateRingIcon

namespace PictureAnimation

open JsNum

/-! ## Auxiliary facts -/

namespace JsNum

@[simp] theorem add_int (a b : Int) : add (int a) (int b) = int (a + b) := rfl

@[simp] theorem sub_int (a b : Int) : sub (int a) (int b) = int (a - b) := rfl

@[simp] theorem abs_int (a : Int) : abs (int a) = int |a| := rfl

@[simp] theorem max_int (a b : Int) : max (int a) (int b) = int (Max.max a b) := rfl

@[simp] theorem min_int (a b : Int) : min (int a) (int b) = int (Min.min a b) := rfl

@[simp] theorem strictEq_int (a b : Int) : strictEq (int a) (int b) = decide (a = b) := rfl

@[simp] theorem strictEq_nan_left (b : JsNum) : strictEq nan b = false := rfl

@[simp] theorem strictEq_nan_right (a : JsNum) : strictEq a nan = false := by
  cases a <;> rfl

theorem mod_int_of_ne (a b : Int) (hb : b ≠ 0) : mod (int a) (int b) = int (Int.tmod a b) := by
  simp [mod, hb]

theorem mod_int_zero (a : Int) : mod (int a) (int 0) = nan := by
  simp [mod]

/-- On a non-negative dividend and a positive divisor `%` is the usual
remainder. -/
theorem mod_int_of_nonneg (a b : Int) (ha : 0 ≤ a) (hb : 0 < b) :
    mod (int a) (int b) = int (a % b) := by
  rw [mod_int_of_ne a b (by omega), Int.tmod_eq_emod ha (by omega)]

/-- A strict inequality of numbers implies that they are different values. -/
theorem ne_of_strictNe {a b : JsNum} (h : strictNe a b = true) (hb : b ≠ nan) : a ≠ b := by
  cases a <;> cases b <;> simp_all [strictNe]

end JsNum

namespace Game_Picture

/-- The cycle length is defined exactly when the getter is: both fail only
on a custom animation without a pattern array. -/
theorem cell_isSome_iff_getCellNumber_isSome (p : Game_Picture) :
    p.cell.isSome = p.getCellNumber.isSome := by
  unfold cell getCellNumber
  split_ifs <;> try rfl
  cases p._customArray <;> rfl

/-- The assignment in closed form, once the cycle length `L` and the resolved
cell `c` of the current state are known. -/
theorem setCell_eq (p : Game_Picture) (v : JsNum) (L : Int) (c : JsNum)
    (hL : p.getCellNumber = some L) (hc : p.cell = some c) :
    p.setCell v = some (if strictNe p._cellCount (mod v (int L)) then
      { p with _prevCellCount := c
               _fadeDurationCount := p._fadeDuration
               _cellCount := mod v (int L) }
      else { p with _cellCount := mod v (int L) }) := by
  unfold setCell
  simp only [hL, hc]
  split_ifs <;> rfl

/-- The cycle length is undefined exactly on a custom animation without a
pattern array. -/
theorem getCellNumber_eq_none_iff (p : Game_Picture) :
    p.getCellNumber = none ↔ p._animationType = 3 ∧ p._customArray = none := by
  unfold getCellNumber
  by_cases h3 : p._animationType = 3
  · cases ha : p._customArray <;> simp [h3]
  · simp only [h3, if_false, false_and, iff_false]
    split_ifs <;> simp

/-- The assignment throws exactly on a custom animation without a pattern
array; on every other state it returns. -/
theorem setCell_eq_none_iff (p : Game_Picture) (v : JsNum) :
    p.setCell v = none ↔ p._animationType = 3 ∧ p._customArray = none := by
  rw [← getCellNumber_eq_none_iff]
  cases hL : p.getCellNumber with
  | none => simp [setCell, hL]
  | some L =>
    obtain ⟨c, hc⟩ : ∃ c, p.cell = some c := by
      have h := cell_isSome_iff_getCellNumber_isSome p
      rw [hL] at h
      exact Option.isSome_iff_exists.mp h
    simp [setCell_eq p v L c hL hc]

/-- The assignment changes neither the configuration nor the flags, and
stores the wrapped value. -/
theorem setCell_fields (p q : Game_Picture) (v : JsNum) (h : p.setCell v = some q) :
    ∃ L, p.getCellNumber = some L ∧ q._cellCount = mod v (int L) ∧
      q._cellNumber = p._cellNumber ∧ q._frameNumber = p._frameNumber ∧
      q._frameCount = p._frameCount ∧ q._animationType = p._animationType ∧
      q._customArray = p._customArray ∧ q._loopFlg = p._loopFlg ∧
      q._direction = p._direction ∧ q._fadeDuration = p._fadeDuration ∧
      q._animationFlg = p._animationFlg := by
  unfold setCell at h
  cases hL : p.getCellNumber with
  | none => simp [hL] at h
  | some L =>
    refine ⟨L, rfl, ?_⟩
    simp only [hL] at h
    split_ifs at h
    · cases hc : p.cell with
      | none => simp [hc] at h
      | some c =>
        simp only [hc, Option.some.injEq] at h
        subst h
        simp
    · simp only [Option.some.injEq] at h
      subst h
      simp

end Game_Picture

/-! ## Index resolution -/

/-- C1: in Forward mode (animation type 1) with `n ≥ 1` cells, assigning a
value `v ≥ 0` to `cell` and reading `cell` back gives `v mod n`; the result
for `v + n` is the result for `v`. -/
theorem forward_cell_after_assignment (p : Game_Picture) (n v : Int)
    (htype : p._animationType = 1) (hcells : p._cellNumber = n) (hn : 1 ≤ n) (hv : 0 ≤ v) :
    (p.setCell (int v)).bind Game_Picture.cell = some (int (v % n)) ∧
    (p.setCell (int (v + n))).bind Game_Picture.cell
      = (p.setCell (int v)).bind Game_Picture.cell := by
  have hL : p.getCellNumber = some n := by simp [Game_Picture.getCellNumber, htype, hcells]
  have hc : p.cell = some p._cellCount := by simp [Game_Picture.cell, htype]
  have key : ∀ w : Int, 0 ≤ w →
      (p.setCell (int w)).bind Game_Picture.cell = some (int (w % n)) := by
    intro w hw
    rw [Game_Picture.setCell_eq p (int w) n _ hL hc, mod_int_of_nonneg w n hw (by omega)]
    split_ifs <;> simp [Game_Picture.cell, htype]
  refine ⟨key v hv, ?_⟩
  rw [key v hv, key (v + n) (by omega), Int.add_emod_self]

/-- Witness of C1: four cells, value 6, on a started Forward picture. -/
theorem forward_cell_after_assignment_witness :
    (1 : Int) ≤ 4 ∧ (0 : Int) ≤ 6 ∧
    (((Game_Picture.initAnimation.setAnimationInit 4 10 "V" 0).startAnimation 1 true
        none).setCell (int 6)).bind Game_Picture.cell = some (int 2) :=
  ⟨by decide, by decide,
    (forward_cell_after_assignment
      ((Game_Picture.initAnimation.setAnimationInit 4 10 "V" 0).startAnimation 1 true none)
      4 6 rfl rfl (by decide) (by decide)).1⟩

/-- C2: in PingPong mode (animation type 2) with `n ≥ 2` cells, assigning
`k ≥ 0` to `cell` and reading `cell` back gives `m` when `m ≤ n - 1` and
`2 (n - 1) - m` otherwise, where `m = k mod 2 (n - 1)`; the result has period
`2 (n - 1)`, and for `n = 4` the values at `k = 0, …, 7` are
`0, 1, 2, 3, 2, 1, 0, 1`. -/
theorem pingpong_cell_after_assignment (p : Game_Picture) (n k : Int)
    (htype : p._animationType = 2) (hcells : p._cellNumber = n) (hn : 2 ≤ n) (hk : 0 ≤ k) :
    (p.setCell (int k)).bind Game_Picture.cell
      = some (int (if k % (2 * (n - 1)) ≤ n - 1 then k % (2 * (n - 1))
                   else 2 * (n - 1) - k % (2 * (n - 1)))) ∧
    (p.setCell (int (k + 2 * (n - 1)))).bind Game_Picture.cell
      = (p.setCell (int k)).bind Game_Picture.cell ∧
    (n = 4 → ([0, 1, 2, 3, 4, 5, 6, 7] : List Int).map
        (fun j => (p.setCell (int j)).bind Game_Picture.cell)
      = [some (int 0), some (int 1), some (int 2), some (int 3), some (int 2), some (int 1),
         some (int 0), some (int 1)]) := by
  have hL : p.getCellNumber = some (2 * (n - 1)) := by
    simp [Game_Picture.getCellNumber, htype, hcells, mul_comm]
  have hc : p.cell
      = some (sub (int (n - 1)) (abs (sub p._cellCount (int (n - 1))))) := by
    simp [Game_Picture.cell, htype, hcells]
  have key : ∀ w : Int, 0 ≤ w →
      (p.setCell (int w)).bind Game_Picture.cell
        = some (int (if w % (2 * (n - 1)) ≤ n - 1 then w % (2 * (n - 1))
                     else 2 * (n - 1) - w % (2 * (n - 1)))) := by
    intro w hw
    rw [Game_Picture.setCell_eq p (int w) _ _ hL hc,
      mod_int_of_nonneg w (2 * (n - 1)) hw (by omega)]
    have hres : ∀ m : Int,
        n - 1 - |m - (n - 1)| = if m ≤ n - 1 then m else 2 * (n - 1) - m := by
      intro m
      split_ifs with hm
      · rw [abs_of_nonpos (by omega)]; omega
      · rw [abs_of_pos (by omega)]; omega
    split_ifs <;> simp [Game_Picture.cell, htype, hcells, hres] <;> omega
  refine ⟨key k hk, ?_, ?_⟩
  · rw [key k hk, key (k + 2 * (n - 1)) (by omega), Int.add_emod_self]
  · intro h4
    subst h4
    simp only [List.map]
    rw [key 0 (by decide), key 1 (by decide), key 2 (by decide), key 3 (by decide),
      key 4 (by decide), key 5 (by decide), key 6 (by decide), key 7 (by decide)]
    decide

/-- Witness of C2: four cells, value 5, on a started PingPong picture. -/
theorem pingpong_cell_after_assignment_witness :
    (2 : Int) ≤ 4 ∧ (0 : Int) ≤ 5 ∧
    (((Game_Picture.initAnimation.setAnimationInit 4 10 "V" 0).startAnimation 2 true
        none).setCell (int 5)).bind Game_Picture.cell = some (int 1) :=
  ⟨by decide, by decide,
    (pingpong_cell_after_assignment
      ((Game_Picture.initAnimation.setAnimationInit 4 10 "V" 0).startAnimation 2 true none)
      4 5 rfl rfl (by decide) (by decide)).1⟩

/-- The resolved cell of a Custom picture whose raw counter `m` is a valid
index of the pattern `s`. -/
theorem custom_cell_of_index (q : Game_Picture) (s : List Int) (m x : Int)
    (htype : q._animationType = 3) (harr : q._customArray = some s)
    (hcount : q._cellCount = int m) (hm : 0 ≤ m) (hx : s.get? m.toNat = some x) :
    q.cell = some (int (Min.min (Max.max (x - 1) 0) (q._cellNumber - 1))) := by
  have hx' : s[m.toNat]? = some x := by simpa using hx
  simp [Game_Picture.cell, htype, harr, hcount, arrayGet, hm, hx', clamp]

/-- C3: in Custom mode (animation type 3) with a non-empty pattern `s` and
`n ≥ 1` cells, assigning `k ≥ 0` to `cell` and reading `cell` back gives
`clamp(s[k mod length s] - 1, 0, n - 1)`; for `s = [1,2,1,3,1,4]` and `n ≥ 4`
that is `s[k mod 6] - 1`, with values `0, 1, 3, 0` at `k = 0, 1, 5, 6`. -/
theorem custom_cell_after_assignment (p : Game_Picture) (s : List Int) (n k : Int)
    (htype : p._animationType = 3) (harr : p._customArray = some s) (hs : s ≠ [])
    (hcells : p._cellNumber = n) (_hn : 1 ≤ n) (hk : 0 ≤ k) :
    ∃ x, s.get? (k % (s.length : Int)).toNat = some x ∧
      (p.setCell (int k)).bind Game_Picture.cell
        = some (int (Min.min (Max.max (x - 1) 0) (n - 1))) ∧
      (s = [1, 2, 1, 3, 1, 4] → 4 ≤ n →
        (p.setCell (int k)).bind Game_Picture.cell = some (int (x - 1)) ∧
        ([0, 1, 5, 6] : List Int).map (fun j => (p.setCell (int j)).bind Game_Picture.cell)
          = [some (int 0), some (int 1), some (int 3), some (int 0)]) := by
  have hlen : 0 < (s.length : Int) := by
    have := List.length_pos.mpr hs
    omega
  have hL : p.getCellNumber = some (s.length : Int) := by
    simp [Game_Picture.getCellNumber, htype, harr]
  obtain ⟨c, hc⟩ : ∃ c, p.cell = some c := by
    simp [Game_Picture.cell, htype, harr]
  have key : ∀ w : Int, 0 ≤ w → ∀ y, s.get? (w % (s.length : Int)).toNat = some y →
      (p.setCell (int w)).bind Game_Picture.cell
        = some (int (Min.min (Max.max (y - 1) 0) (n - 1))) := by
    intro w hw y hy
    have hm : 0 ≤ w % (s.length : Int) := Int.emod_nonneg _ (by omega)
    rw [Game_Picture.setCell_eq p (int w) _ _ hL hc,
      mod_int_of_nonneg w (s.length : Int) hw hlen]
    split_ifs
    · simp only [Option.some_bind]
      refine (custom_cell_of_index _ s (w % (s.length : Int)) y ?_ ?_ ?_ hm hy).trans ?_
      · exact htype
      · exact harr
      · rfl
      · simp [hcells]
    · simp only [Option.some_bind]
      refine (custom_cell_of_index _ s (w % (s.length : Int)) y ?_ ?_ ?_ hm hy).trans ?_
      · exact htype
      · exact harr
      · rfl
      · simp [hcells]
  have hidx : (k % (s.length : Int)).toNat < s.length := by
    have h1 : k % (s.length : Int) < s.length := Int.emod_lt_of_pos _ hlen
    have h2 : 0 ≤ k % (s.length : Int) := Int.emod_nonneg _ (by omega)
    omega
  obtain ⟨x, hx⟩ : ∃ x, s.get? (k % (s.length : Int)).toNat = some x :=
    ⟨_, List.get?_eq_get hidx⟩
  refine ⟨x, hx, key k hk x hx, ?_⟩
  intro hseq h4
  have hmem : x ∈ s := List.get?_mem hx
  subst hseq
  refine ⟨?_, ?_⟩
  · rw [key k hk x hx]
    simp only [List.mem_cons, List.mem_singleton, List.not_mem_nil, or_false] at hmem
    have h0 : Max.max (x - 1) 0 = x - 1 := max_eq_left (by omega)
    have h1 : Min.min (x - 1) (n - 1) = x - 1 := min_eq_left (by omega)
    rw [h0, h1]
  · simp only [List.map]
    rw [key 0 (by decide) 1 (by decide), key 1 (by decide) 2 (by decide),
      key 5 (by decide) 4 (by decide), key 6 (by decide) 1 (by decide)]
    have h3 : Min.min (3 : Int) (n - 1) = 3 := min_eq_left (by omega)
    have h0 : Min.min (0 : Int) (n - 1) = 0 := min_eq_left (by omega)
    have h1 : Min.min (1 : Int) (n - 1) = 1 := min_eq_left (by omega)
    simp [h0, h1, h3]

/-- Witness of C3: the documented pattern on four cells at `k = 5`. -/
theorem custom_cell_after_assignment_witness :
    ([1, 2, 1, 3, 1, 4] : List Int) ≠ [] ∧ (1 : Int) ≤ 4 ∧ (0 : Int) ≤ 5 ∧
    ∃ x, ([1, 2, 1, 3, 1, 4] : List Int).get? ((5 : Int) % ((6 : Nat) : Int)).toNat = some x ∧
      (((Game_Picture.initAnimation.setAnimationInit 4 10 "V" 0).startAnimation 3 true
        (some [1, 2, 1, 3, 1, 4])).setCell (int 5)).bind Game_Picture.cell
        = some (int (Min.min (Max.max (x - 1) 0) (4 - 1))) := by
  obtain ⟨x, hx, hcell, _⟩ := custom_cell_after_assignment
    ((Game_Picture.initAnimation.setAnimationInit 4 10 "V" 0).startAnimation 3 true
      (some [1, 2, 1, 3, 1, 4])) [1, 2, 1, 3, 1, 4] 4 5 rfl rfl (by decide) rfl
    (by decide) (by decide)
  exact ⟨by decide, by decide, by decide, x, hx, hcell⟩

/-! ## Command arguments -/

/-- Called with three arguments, `getArgNumber` keeps `min` and replaces `max`
by `Infinity`: the result is the parsed number raised to `min`. -/
theorem getArgNumber_three_arguments (h : Host) (arg : Option String) (lo hi : Int) :
    getArgNumber h arg [lo, hi]
      = Max.max (orZero (parseInt (convertEscapeCharacters h arg))) lo := by
  simp [getArgNumber, clampBounds]

/-- Called with three arguments, `getArgArrayNumber` applies both bounds to
every element. -/
theorem getArgArrayNumber_three_arguments (h : Host) (args : Option String) (lo hi : Int) :
    getArgArrayNumber h args [lo, hi]
      = (getArgArrayString h args false).map
          (fun v => Min.min (Max.max (orZero (parseIntChars v)) lo) hi) := by
  simp [getArgArrayNumber, clampBounds]

/-- C4: `getArgNumber("500", 1, 200)` is `500`, above the stated maximum:
`PA_INIT 500 10000 V 10000` stages 500 cells, 10000 frames and a fade of
10000, and `PA_START 1 7` sets animation type 7, while the sibling
`getArgArrayNumber("500", 1, 200)` does clamp to `200`. -/
theorem getArgNumber_upper_bound_dropped :
    getArgNumber plainHost (some "500") [1, 200] = 500 ∧
    pluginCommandPictureAnimation_PA_INIT plainHost ["500", "10000", "V", "10000"]
      = { cellNumber := 500, frameNumber := 10000, direction := "V", fadeDuration := 10000 } ∧
    (pluginCommandPictureAnimation_PA_START plainHost ["1", "7"] false
      Game_Picture.initAnimation)._animationType = 7 ∧
    getArgArrayNumber plainHost (some "500") [1, 200] = [200] := by
  decide

/-- C5: on a Forward picture with four cells, `PA_SET_CELL 1 1` resolves to
cell index 1 (the second cell), `PA_SET_CELL 1 3` to index 3 (the fourth) and
`PA_SET_CELL 1 4` to index 0 (the first), and `PA_SET_CELL 1 1` on the same
picture before its start to index 1: the command assigns the 1-based number
itself, not `c - 1`. -/
theorem setCellCommand_resolves_number_itself :
    ((pluginCommandPictureAnimation_PA_SET_CELL plainHost ["1", "1"] forwardPicture4).bind
      (fun r => r.picture.cell)) = some (int 1) ∧
    ((pluginCommandPictureAnimation_PA_SET_CELL plainHost ["1", "3"] forwardPicture4).bind
      (fun r => r.picture.cell)) = some (int 3) ∧
    ((pluginCommandPictureAnimation_PA_SET_CELL plainHost ["1", "4"] forwardPicture4).bind
      (fun r => r.picture.cell)) = some (int 0) ∧
    ((pluginCommandPictureAnimation_PA_SET_CELL plainHost ["1", "1"]
      (Game_Picture.initAnimation.setAnimationInit 4 10 "V" 0)).bind
      (fun r => r.picture.cell)) = some (int 1) := by
  decide

/-! ## Ticks -/

namespace Game_Picture

/-- A tick of a fading picture only counts the fade down. -/
theorem update_of_fading (p : Game_Picture) (h : p._fadeDurationCount ≠ 0) :
    p.update = some { p with _fadeDurationCount := p._fadeDurationCount - 1 } := by
  simp [update, isFading, h, updateFading]

/-- A tick of an animating picture that is not fading is `updateAnimation`. -/
theorem update_of_not_fading (p : Game_Picture) (h : p._fadeDurationCount = 0)
    (hanim : p.isAnimation = true) : p.update = p.updateAnimation := by
  simp [update, isFading, h, hanim]

theorem updateN_succ (k : Nat) (p : Game_Picture) :
    p.updateN (k + 1) = (p.update).bind (updateN k) := rfl

theorem updateN_add (a b : Nat) : ∀ p : Game_Picture,
    p.updateN (a + b) = (p.updateN a).bind (updateN b) := by
  induction a with
  | zero => intro p; simp [updateN]
  | succ a ih =>
    intro p
    rw [Nat.add_right_comm, updateN_succ, updateN_succ]
    cases h : p.update with
    | none => rfl
    | some q => simpa using ih q

/-- While the fade counter is `k`, the first `k` ticks only count it down. -/
theorem updateN_fading (j : Nat) : ∀ (p : Game_Picture) (k : Nat),
    p._fadeDurationCount = (k : Int) → j ≤ k →
    p.updateN j = some { p with _fadeDurationCount := (k : Int) - (j : Int) } := by
  induction j with
  | zero =>
    intro p k hk _
    cases p
    simp_all [updateN]
  | succ j ih =>
    intro p k hk hj
    have hne : p._fadeDurationCount ≠ 0 := by omega
    rw [updateN_succ, update_of_fading p hne, Option.some_bind,
      ih { p with _fadeDurationCount := p._fadeDurationCount - 1 } (k - 1)
        (by show p._fadeDurationCount - 1 = _; omega) (by omega)]
    congr 2
    show ((k - 1 : Nat) : Int) - (j : Int) = (k : Int) - ((j + 1 : Nat) : Int)
    omega

/-- Ticks that neither wrap the frame counter nor find a fade only count
frames. -/
theorem updateN_frames (j : Nat) : ∀ (p : Game_Picture) (i : Int),
    p.isAnimation = true → p._fadeDurationCount = 0 → p._frameCount = int i → 0 ≤ i →
    i + (j : Int) < p._frameNumber →
    p.updateN j = some { p with _frameCount := int (i + (j : Int)) } := by
  induction j with
  | zero =>
    intro p i _ _ hi _ _
    cases p
    simp_all [updateN]
  | succ j ih =>
    intro p i hanim hfade hi h0 hlt
    have hstep : p.update = some { p with _frameCount := int (i + 1) } := by
      rw [update_of_not_fading p hfade hanim]
      have hmod : mod (int (i + 1)) (int p._frameNumber) = int (i + 1) := by
        rw [mod_int_of_nonneg _ _ (by omega) (by omega), Int.emod_eq_of_lt (by omega) (by omega)]
      have hne : ¬ (i + 1 = 0) := by omega
      have hanim' : p._animationFlg = true := hanim
      simp [updateAnimation, isAnimation, hanim', hi, hmod, hne]
    rw [updateN_succ, hstep, Option.some_bind,
      ih { p with _frameCount := int (i + 1) } (i + 1) hanim hfade rfl (by omega)
        (by show i + 1 + (j : Int) < p._frameNumber; push_cast at hlt; omega)]
    congr 2
    show int (i + 1 + (j : Int)) = int (i + ((j + 1 : Nat) : Int))
    push_cast
    congr 1
    omega

/-- The tick on which the frame counter wraps, Forward mode, not at the last
raw index: the raw counter advances and the fade is armed. -/
theorem update_advance_forward (p : Game_Picture) (c : Int)
    (hanim : p.isAnimation = true) (hfade : p._fadeDurationCount = 0)
    (hframe : p._frameCount = int (p._frameNumber - 1)) (hf : 1 ≤ p._frameNumber)
    (htype : p._animationType = 1) (hcount : p._cellCount = int c) (hc : 0 ≤ c)
    (hlt : c + 1 < p._cellNumber) :
    p.update = some { p with _frameCount := int 0
                             _cellCount := int (c + 1)
                             _prevCellCount := int c
                             _fadeDurationCount := p._fadeDuration } := by
  rw [update_of_not_fading p hfade hanim]
  have hmod : mod (int p._frameNumber) (int p._frameNumber) = int 0 := by
    rw [mod_int_of_nonneg _ _ (by omega) (by omega)]
    simp
  have hanim' : p._animationFlg = true := hanim
  have hwrap : mod (int (c + 1)) (int p._cellNumber) = int (c + 1) := by
    rw [mod_int_of_nonneg _ _ (by omega) (by omega), Int.emod_eq_of_lt (by omega) (by omega)]
  have hne : ¬ (c + 1 = 0) := by omega
  simp [updateAnimation, isAnimation, hanim', hframe, hmod, addCellCount, setCell,
    getCellNumber, htype, hcount, hwrap, strictNe, cell, hne]

/-- The tick on which the frame counter wraps, Forward mode, at the last raw
index: the raw counter returns to 0 and a picture that does not loop halts. -/
theorem update_wrap_forward (p : Game_Picture) (c : Int)
    (hanim : p.isAnimation = true) (hfade : p._fadeDurationCount = 0)
    (hframe : p._frameCount = int (p._frameNumber - 1)) (hf : 1 ≤ p._frameNumber)
    (htype : p._animationType = 1) (hcount : p._cellCount = int c) (hc : 0 ≤ c)
    (hlast : c + 1 = p._cellNumber) :
    ∃ q, p.update = some q ∧ q._cellCount = int 0 ∧ q._frameCount = int 0 ∧
      q.isAnimation = p._loopFlg ∧ q.cell = some (int 0) := by
  rw [update_of_not_fading p hfade hanim]
  have hmod : mod (int p._frameNumber) (int p._frameNumber) = int 0 := by
    rw [mod_int_of_nonneg _ _ (by omega) (by omega)]
    simp
  have hanim' : p._animationFlg = true := hanim
  have hwrap : mod (int (c + 1)) (int p._cellNumber) = int 0 := by
    rw [mod_int_of_nonneg _ _ (by omega) (by omega), hlast]
    simp
  by_cases h0 : c = 0
  · subst h0
    simp only [zero_add] at hwrap
    cases hl : p._loopFlg <;>
    simp [updateAnimation, isAnimation, hanim', hframe, hmod, addCellCount, setCell,
      getCellNumber, htype, hcount, hwrap, strictNe, cell, hl]
  · cases hl : p._loopFlg <;>
    simp [updateAnimation, isAnimation, hanim', hframe, hmod, addCellCount, setCell,
      getCellNumber, htype, hcount, hwrap, strictNe, cell, hl, h0]

/-- The closed form of `updateAnimation` on an animating picture: the frame
counter moves to `(frameCount + 1) % frameNumber`; when that is `0` the cell
is assigned `cellCount + 1` and a non-looping picture that is back on raw
counter 0 halts. -/
theorem updateAnimation_of_animating (q : Game_Picture) (hanim : q.isAnimation = true) :
    q.updateAnimation =
      if strictEq (mod (add q._frameCount (int 1)) (int q._frameNumber)) (int 0) then
        (setCell { q with _frameCount := mod (add q._frameCount (int 1)) (int q._frameNumber) }
          (add q._cellCount (int 1))).map
          (fun r => if strictEq r._cellCount (int 0) && !r._loopFlg
            then { r with _animationFlg := false } else r)
      else some { q with _frameCount := mod (add q._frameCount (int 1)) (int q._frameNumber) } := by
  simp only [updateAnimation, hanim, addCellCount, Bool.not_true, Bool.false_eq_true, if_false]
  split_ifs with h
  · cases hs : setCell { q with _frameCount := mod (add q._frameCount (int 1)) (int q._frameNumber) }
        (add q._cellCount (int 1)) with
    | none => rfl
    | some r =>
      simp only [Option.map_some']
      split_ifs <;> rfl
  · rfl

/-- Every result of `updateAnimation` on an animating picture carries the
frame counter `(frameCount + 1) % frameNumber`. -/
theorem updateAnimation_frameCount (q r : Game_Picture) (hanim : q.isAnimation = true)
    (h : q.updateAnimation = some r) :
    r._frameCount = mod (add q._frameCount (int 1)) (int q._frameNumber) := by
  rw [updateAnimation_of_animating q hanim] at h
  split_ifs at h with hz
  · cases hs : setCell { q with _frameCount := mod (add q._frameCount (int 1)) (int q._frameNumber) }
        (add q._cellCount (int 1)) with
    | none => simp [hs] at h
    | some r2 =>
      obtain ⟨L, -, -, -, -, hfc, -⟩ := setCell_fields _ _ _ hs
      simp only [hs, Option.map_some', Option.some.injEq] at h
      subst h
      split_ifs
      · exact hfc
      · exact hfc
  · simp only [Option.some.injEq] at h
    subst h
    rfl

end Game_Picture

/-! ## Fading and advancing -/

/-- C6 (counterexample): three ticks after its start the picture
`startedPicture432` is animating with `fadeRemaining = 2`; the next `update`
counts the fade down to 1 and leaves the frame counter at 0 instead of moving
it to `(0 + 1) mod 3 = 1`, and the second advance comes at tick 8, not 6. -/
theorem update_while_fading_holds_frame_counter :
    startedPicture432.updateN 3 = some fadingPicture432 ∧
    fadingPicture432.isAnimation = true ∧ 0 < fadingPicture432._fadeDurationCount ∧
    (∃ q, fadingPicture432.update = some q ∧ q._fadeDurationCount = 1 ∧
      q._frameCount = int 0 ∧
      q._frameCount
        ≠ mod (add fadingPicture432._frameCount (int 1)) (int fadingPicture432._frameNumber)) ∧
    (∃ q, startedPicture432.updateN 6 = some q ∧ q._cellCount = int 1) ∧
    (∃ q, startedPicture432.updateN 8 = some q ∧ q._cellCount = int 2) := by
  refine ⟨by decide, by decide, by decide, ⟨_, rfl, by decide, by decide, by decide⟩,
    ⟨_, rfl, by decide⟩, ⟨_, rfl, by decide⟩⟩

/-- C6 (amended): a fade suspends the timer.  On an animating picture with
`fadeRemaining > 0` one `update` decrements `fadeRemaining` and changes
nothing else (frame counter and raw cell counter included), and so do the
first `fadeRemaining` ticks.  On a tick of an animating picture whose
`fadeRemaining` is 0 the frame counter moves to
`(frameCounter + 1) % frameInterval`: when that is not 0 nothing else changes,
and when it is 0 the cell is assigned `rawCellCounter + 1` (a non-looping
picture that is back on raw counter 0 stops animating).  So a fade of `j`
remaining ticks puts off that advancing tick by exactly `j` ticks. -/
theorem update_fading_suspends_advance (p : Game_Picture) (_hanim : p.isAnimation = true)
    (hfade : 0 < p._fadeDurationCount) :
    p.update = some { p with _fadeDurationCount := p._fadeDurationCount - 1 } ∧
    (∀ j : Nat, (j : Int) ≤ p._fadeDurationCount →
      p.updateN j = some { p with _fadeDurationCount := p._fadeDurationCount - (j : Int) }) ∧
    (∀ q : Game_Picture, q.isAnimation = true → q._fadeDurationCount = 0 →
      q.update = q.updateAnimation ∧
      (∀ r : Game_Picture, q.update = some r →
        r._frameCount = mod (add q._frameCount (int 1)) (int q._frameNumber)) ∧
      (strictEq (mod (add q._frameCount (int 1)) (int q._frameNumber)) (int 0) = false →
        q.update
          = some { q with _frameCount := mod (add q._frameCount (int 1)) (int q._frameNumber) }) ∧
      (strictEq (mod (add q._frameCount (int 1)) (int q._frameNumber)) (int 0) = true →
        q.update
          = (Game_Picture.setCell
              { q with _frameCount := mod (add q._frameCount (int 1)) (int q._frameNumber) }
              (add q._cellCount (int 1))).map
              (fun r => if strictEq r._cellCount (int 0) && !r._loopFlg
                then { r with _animationFlg := false } else r))) ∧
    (∀ j : Nat, (j : Int) = p._fadeDurationCount →
      p.updateN (j + 1)
        = Game_Picture.updateAnimation { p with _fadeDurationCount := 0 }) := by
  have hrun : ∀ j : Nat, (j : Int) ≤ p._fadeDurationCount →
      p.updateN j = some { p with _fadeDurationCount := p._fadeDurationCount - (j : Int) } := by
    intro j hj
    have hk : p._fadeDurationCount = ((p._fadeDurationCount.toNat : Nat) : Int) := by omega
    have h := Game_Picture.updateN_fading j p p._fadeDurationCount.toNat hk (by omega)
    rw [h, ← hk]
  refine ⟨Game_Picture.update_of_fading p (by omega), hrun, ?_, ?_⟩
  · intro q hq h0
    have hupd := Game_Picture.update_of_not_fading q h0 hq
    refine ⟨hupd, ?_, ?_, ?_⟩
    · intro r hr
      rw [hupd] at hr
      exact Game_Picture.updateAnimation_frameCount q r hq hr
    · intro hz
      rw [hupd, Game_Picture.updateAnimation_of_animating q hq, hz]
      rfl
    · intro hz
      rw [hupd, Game_Picture.updateAnimation_of_animating q hq, hz]
      rfl
  · intro j hj
    rw [Game_Picture.updateN_add j 1 p, hrun j (by omega), hj, sub_self]
    simp only [Option.some_bind]
    rw [Game_Picture.updateN_succ]
    have hq : Game_Picture.isAnimation { p with _fadeDurationCount := 0 } = true := _hanim
    rw [Game_Picture.update_of_not_fading _ rfl hq]
    cases Game_Picture.updateAnimation { p with _fadeDurationCount := 0 } <;> rfl

/-- Witness of C6 (amended): the picture `fadingPicture432`, and the advancing
tick of `startedPicture432`. -/
theorem update_fading_suspends_advance_witness :
    fadingPicture432.isAnimation = true ∧ 0 < fadingPicture432._fadeDurationCount ∧
    fadingPicture432.update
      = some { fadingPicture432 with
                _fadeDurationCount := fadingPicture432._fadeDurationCount - 1 } ∧
    startedPicture432.update = some { startedPicture432 with _frameCount := int 1 } ∧
    fadingPicture432.updateN 3
      = some { fadingPicture432 with _fadeDurationCount := 0, _frameCount := int 1 } :=
  ⟨by decide, by decide,
    (update_fading_suspends_advance fadingPicture432 (by decide) (by decide)).1,
    ((update_fading_suspends_advance fadingPicture432 (by decide) (by decide)).2.2.1
      startedPicture432 (by decide) (by decide)).2.2.1 (by decide),
    by decide⟩

/-! ## Cross-fade arming -/

/-- C7: whenever the wrapped value `v % L` (`L` the effective cycle length)
is `!==` the current raw counter, the assignment `cell = v` leaves
`_fadeDurationCount` equal to `_fadeDuration` and `_prevCellCount` equal to
what the `cell` getter returned before the assignment; the same holds for
`addCellCount`, which assigns `_cellCount + 1`. -/
theorem setCell_arms_fade (p : Game_Picture) (v : JsNum) (L : Int)
    (hL : p.getCellNumber = some L)
    (hne : strictNe p._cellCount (mod v (int L)) = true) :
    ∃ q c, p.cell = some c ∧ p.setCell v = some q ∧
      q._fadeDurationCount = p._fadeDuration ∧ q._prevCellCount = c ∧
      q._cellCount = mod v (int L) ∧
      (strictNe p._cellCount (mod (add p._cellCount (int 1)) (int L)) = true →
        ∃ r, p.addCellCount = some r ∧ r._fadeDurationCount = p._fadeDuration ∧
          r._prevCellCount = c) := by
  obtain ⟨c, hc⟩ : ∃ c, p.cell = some c := by
    have h := Game_Picture.cell_isSome_iff_getCellNumber_isSome p
    rw [hL] at h
    exact Option.isSome_iff_exists.mp h
  refine ⟨_, c, hc, Game_Picture.setCell_eq p v L c hL hc, ?_, ?_, ?_, ?_⟩
  · simp [hne]
  · simp [hne]
  · simp [hne]
  · intro hadd
    refine ⟨_, Game_Picture.setCell_eq p _ L c hL hc, ?_, ?_⟩
    · simp [hadd]
    · simp [hadd]

/-- Witness of C7: assigning 2 to a Forward picture at raw counter 1. -/
theorem setCell_arms_fade_witness :
    fadingPicture432.getCellNumber = some 4 ∧
    strictNe fadingPicture432._cellCount (mod (int 2) (int 4)) = true ∧
    ∃ q c, fadingPicture432.cell = some c ∧ fadingPicture432.setCell (int 2) = some q ∧
      q._fadeDurationCount = fadingPicture432._fadeDuration ∧ q._prevCellCount = c := by
  obtain ⟨q, c, h1, h2, h3, h4, _⟩ :=
    setCell_arms_fade fadingPicture432 (int 2) 4 (by decide) (by decide)
  exact ⟨by decide, by decide, q, c, h1, h2, h3, h4⟩

/-- C8 (counterexample): on `customPicture112` the assignment `cell = 1`
moves the raw counter from 0 to 1 while the resolved cell stays 0, and still
`_fadeDurationCount` goes from 0 to `_fadeDuration = 5`. -/
theorem setCell_rearms_without_resolved_change :
    customPicture112.cell = some (int 0) ∧ customPicture112._fadeDurationCount = 0 ∧
    ∃ q, customPicture112.setCell (int 1) = some q ∧ q.cell = some (int 0) ∧
      q._fadeDurationCount = 5 ∧ q._fadeDurationCount ≠ customPicture112._fadeDurationCount := by
  refine ⟨by decide, by decide, _, rfl, by decide, by decide, by decide⟩

/-- C8 (amended): the assignment `cell = v` re-arms the fade exactly when the
wrapped value `v % L` is `!==` the current raw counter.  Then
`_fadeDurationCount` becomes `_fadeDuration` and `_prevCellCount` the cell
resolved before; otherwise both fields are left untouched.  A change of the
resolved cell always comes with such a change of the raw counter. -/
theorem setCell_rearms_iff_raw_counter_changes (p : Game_Picture) (v : JsNum) (L : Int)
    (hL : p.getCellNumber = some L) :
    ∃ q c, p.cell = some c ∧ p.setCell v = some q ∧
      (strictNe p._cellCount (mod v (int L)) = true →
        q._fadeDurationCount = p._fadeDuration ∧ q._prevCellCount = c) ∧
      (strictNe p._cellCount (mod v (int L)) = false →
        q._fadeDurationCount = p._fadeDurationCount ∧ q._prevCellCount = p._prevCellCount) ∧
      (q.cell ≠ p.cell → strictNe p._cellCount (mod v (int L)) = true) := by
  obtain ⟨c, hc⟩ : ∃ c, p.cell = some c := by
    have h := Game_Picture.cell_isSome_iff_getCellNumber_isSome p
    rw [hL] at h
    exact Option.isSome_iff_exists.mp h
  refine ⟨_, c, hc, Game_Picture.setCell_eq p v L c hL hc, ?_, ?_, ?_⟩
  · intro h
    simp [h]
  · intro h
    simp [h]
  · intro hcell
    by_contra hno
    have hfalse : strictNe p._cellCount (mod v (int L)) = false := by simpa using hno
    apply hcell
    have hsame : mod v (int L) = p._cellCount := by
      cases hp : p._cellCount <;> cases hm : mod v (int L) <;>
        simp_all [strictNe]
    rw [hsame] at hfalse ⊢
    rw [hfalse, if_neg (by decide)]

/-- Witness of C8 (amended): the picture `customPicture112`, value 1. -/
theorem setCell_rearms_iff_raw_counter_changes_witness :
    customPicture112.getCellNumber = some 3 ∧
    ∃ q c, customPicture112.cell = some c ∧ customPicture112.setCell (int 1) = some q ∧
      (strictNe customPicture112._cellCount (mod (int 1) (int 3)) = true →
        q._fadeDurationCount = customPicture112._fadeDuration ∧ q._prevCellCount = c) := by
  obtain ⟨q, c, h1, h2, h3, _⟩ :=
    setCell_rearms_iff_raw_counter_changes customPicture112 (int 1) 3 (by decide)
  exact ⟨by decide, q, c, h1, h2, h3⟩

/-! ## Timed playback in Forward mode -/

namespace ForwardRun

theorem cell_eq {n f d : Nat} {loop : Bool} {p : Game_Picture} {c e i : Nat}
    (h : ForwardRun n f d loop p c e i) : p.cell = some (int (c : Int)) := by
  simp [Game_Picture.cell, h.type, h.count]

theorem isAnimation_eq {n f d : Nat} {loop : Bool} {p : Game_Picture} {c e i : Nat}
    (h : ForwardRun n f d loop p c e i) : p.isAnimation = true := h.anim

/-- During a fade only the fade counter moves. -/
theorem fading_ticks {n f d : Nat} {loop : Bool} {p : Game_Picture} {c e i : Nat}
    (h : ForwardRun n f d loop p c e i) (t : Nat) (ht : t ≤ e) :
    ∃ q, p.updateN t = some q ∧ ForwardRun n f d loop q c (e - t) i := by
  refine ⟨_, Game_Picture.updateN_fading t p e h.fading ht, ?_⟩
  refine ⟨h.anim, h.type, h.looping, h.cells, h.frames, h.duration, h.count, h.frame, ?_⟩
  show (e : Int) - (t : Int) = ((e - t : Nat) : Int)
  omega

/-- Without a fade, ticks that do not wrap the frame counter only count
frames. -/
theorem frame_ticks {n f d : Nat} {loop : Bool} {p : Game_Picture} {c i : Nat}
    (h : ForwardRun n f d loop p c 0 i) (t : Nat) (ht : i + t < f) :
    ∃ q, p.updateN t = some q ∧ ForwardRun n f d loop q c 0 (i + t) := by
  have hlt : (i : Int) + (t : Int) < p._frameNumber := by
    rw [h.frames]
    omega
  refine ⟨_, Game_Picture.updateN_frames t p i h.anim (by simpa using h.fading) h.frame
    (by omega) hlt, ?_⟩
  refine ⟨h.anim, h.type, h.looping, h.cells, h.frames, h.duration, h.count, ?_, h.fading⟩
  show int ((i : Int) + (t : Int)) = int ((i + t : Nat) : Int)
  push_cast
  rfl

/-- The tick that wraps the frame counter advances the raw counter and arms
the fade. -/
theorem advance_tick {n f d : Nat} {loop : Bool} {p : Game_Picture} {c i : Nat}
    (h : ForwardRun n f d loop p c 0 i) (hi : i + 1 = f) (hc : c + 1 < n) :
    ∃ q, p.update = some q ∧ ForwardRun n f d loop q (c + 1) d 0 ∧
      q._prevCellCount = int (c : Int) := by
  have hframe : p._frameCount = int (p._frameNumber - 1) := by
    rw [h.frame, h.frames]
    congr 1
    omega
  refine ⟨_, Game_Picture.update_advance_forward p c h.anim (by simpa using h.fading) hframe
    (by rw [h.frames]; omega) h.type h.count (by omega) (by rw [h.cells]; omega), ?_, rfl⟩
  refine ⟨h.anim, h.type, h.looping, h.cells, h.frames, h.duration, ?_, rfl, h.duration⟩
  show int ((c : Int) + 1) = int ((c + 1 : Nat) : Int)
  push_cast
  rfl

/-- The tick that wraps the raw counter back to 0 halts a picture that does
not loop. -/
theorem wrap_tick {n f d : Nat} {loop : Bool} {p : Game_Picture} {c i : Nat}
    (h : ForwardRun n f d loop p c 0 i) (hi : i + 1 = f) (hc : c + 1 = n) :
    ∃ q, p.update = some q ∧ q._cellCount = int 0 ∧ q._frameCount = int 0 ∧
      q.isAnimation = loop ∧ q.cell = some (int 0) := by
  have hframe : p._frameCount = int (p._frameNumber - 1) := by
    rw [h.frame, h.frames]
    congr 1
    omega
  have hw := Game_Picture.update_wrap_forward p c h.anim (by simpa using h.fading) hframe
    (by rw [h.frames]; omega) h.type h.count (by omega) (by rw [h.cells]; omega)
  rw [h.looping] at hw
  exact hw

/-- Before the next advance the picture keeps animating at the same raw
counter. -/
theorem before_advance {n f d : Nat} {loop : Bool} {p : Game_Picture} {c e i : Nat}
    (h : ForwardRun n f d loop p c e i) (hi : i < f) (t : Nat)
    (ht : t < e + (f - i)) :
    ∃ q e1 i1, p.updateN t = some q ∧ ForwardRun n f d loop q c e1 i1 := by
  by_cases hte : t ≤ e
  · obtain ⟨q, hq, hrun⟩ := h.fading_ticks t hte
    exact ⟨q, _, _, hq, hrun⟩
  · obtain ⟨q, hq, hrun⟩ := h.fading_ticks e le_rfl
    rw [Nat.sub_self] at hrun
    obtain ⟨r, hr, hrun2⟩ := hrun.frame_ticks (t - e) (by omega)
    refine ⟨r, _, _, ?_, hrun2⟩
    have hsplit : t = e + (t - e) := by omega
    rw [hsplit, Game_Picture.updateN_add, hq, Option.some_bind, hr]

/-- The state right before the wrapping tick. -/
theorem before_wrap {n f d : Nat} {loop : Bool} {p : Game_Picture} {c e i : Nat}
    (h : ForwardRun n f d loop p c e i) (hi : i < f) :
    ∃ q, p.updateN (e + (f - i - 1)) = some q ∧ ForwardRun n f d loop q c 0 (f - 1) := by
  obtain ⟨q, hq, hrun⟩ := h.fading_ticks e le_rfl
  rw [Nat.sub_self] at hrun
  obtain ⟨r, hr, hrun2⟩ := hrun.frame_ticks (f - i - 1) (by omega)
  have hidx : i + (f - i - 1) = f - 1 := by omega
  rw [hidx] at hrun2
  exact ⟨r, by rw [Game_Picture.updateN_add, hq, Option.some_bind, hr], hrun2⟩

/-- A whole phase, the rest of a fade and of a frame interval, ends with the
next raw counter and a fresh fade. -/
theorem phase {n f d : Nat} {loop : Bool} {p : Game_Picture} {c e i : Nat}
    (h : ForwardRun n f d loop p c e i) (hi : i < f) (hc : c + 1 < n) :
    ∃ q, p.updateN (e + (f - i)) = some q ∧ ForwardRun n f d loop q (c + 1) d 0 := by
  obtain ⟨q, hq, hrun⟩ := h.before_wrap hi
  obtain ⟨r, hr, hrun2, _⟩ := hrun.advance_tick (by omega) hc
  refine ⟨r, ?_, hrun2⟩
  have hsplit : e + (f - i) = e + (f - i - 1) + 1 := by omega
  rw [hsplit, Game_Picture.updateN_add, hq, Option.some_bind]
  simpa [Game_Picture.updateN] using hr

/-- The last phase of a cycle ends at raw counter 0, halted unless looping. -/
theorem last_phase {n f d : Nat} {loop : Bool} {p : Game_Picture} {c e i : Nat}
    (h : ForwardRun n f d loop p c e i) (hi : i < f) (hc : c + 1 = n) :
    ∃ q, p.updateN (e + (f - i)) = some q ∧ q._cellCount = int 0 ∧
      q.isAnimation = loop ∧ q.cell = some (int 0) := by
  obtain ⟨q, hq, hrun⟩ := h.before_wrap hi
  obtain ⟨r, hr, h1, _, h3, h4⟩ := hrun.wrap_tick (by omega) hc
  refine ⟨r, ?_, h1, h3, h4⟩
  have hsplit : e + (f - i) = e + (f - i - 1) + 1 := by omega
  rw [hsplit, Game_Picture.updateN_add, hq, Option.some_bind]
  simpa [Game_Picture.updateN] using hr

/-- From raw counter 0, the advance number `j + 1` is complete after
`e + (f - i) + j * (f + d)` ticks. -/
theorem advances {n f d : Nat} {loop : Bool} {p : Game_Picture} {e i : Nat}
    (h : ForwardRun n f d loop p 0 e i) (hi : i < f) (j : Nat) (hj : j + 1 < n) :
    ∃ q, p.updateN (e + (f - i) + j * (f + d)) = some q ∧
      ForwardRun n f d loop q (j + 1) d 0 := by
  induction j with
  | zero =>
    obtain ⟨q, hq, hrun⟩ := h.phase hi (by omega)
    exact ⟨q, by simpa using hq, by simpa using hrun⟩
  | succ j ih =>
    obtain ⟨q, hq, hrun⟩ := ih (by omega)
    obtain ⟨r, hr, hrun2⟩ := hrun.phase (by omega) (by omega)
    refine ⟨r, ?_, hrun2⟩
    have hsplit : e + (f - i) + (j + 1) * (f + d) = e + (f - i) + j * (f + d) + (d + (f - 0)) := by
      rw [Nat.succ_mul]
      omega
    rw [hsplit, Game_Picture.updateN_add, hq, Option.some_bind, hr]

end ForwardRun

/-- A fresh picture after `setAnimationInit` and `startAnimation(1, …)` is a
Forward run at raw counter 0. -/
theorem forwardRun_start (n f d : Nat) (layout : String) (loop : Bool)
    (seq : Option (List Int)) :
    ForwardRun n f d loop
      ((Game_Picture.initAnimation.setAnimationInit n f layout d).startAnimation 1 loop seq)
      0 0 0 :=
  ⟨rfl, rfl, rfl, rfl, rfl, rfl, rfl, rfl, rfl⟩

/-- C9: on a fresh picture after `setAnimationInit(n, f, layout, d)` and
`startAnimation(1, loop, seq)` with `n ≥ 2` and `f ≥ 1`, the resolved cell is
0 (and no fade runs) after each of the first `f - 1` calls of `update`; after
exactly `f` calls it is 1 with `fadeRemaining = d`; each of the next `d`
calls lowers `fadeRemaining` by one and keeps the cell, so that
`fadeRemaining` is 0 after `d` further calls. -/
theorem timed_scenario (n f d : Nat) (layout : String) (loop : Bool) (seq : Option (List Int))
    (hn : 2 ≤ n) (hf : 1 ≤ f) :
    (∀ j : Nat, j < f → ∃ q,
      ((Game_Picture.initAnimation.setAnimationInit n f layout d).startAnimation 1 loop
        seq).updateN j = some q ∧
      q.cell = some (int 0) ∧ q._fadeDurationCount = 0) ∧
    (∀ j : Nat, j ≤ d → ∃ q,
      ((Game_Picture.initAnimation.setAnimationInit n f layout d).startAnimation 1 loop
        seq).updateN (f + j) = some q ∧
      q.cell = some (int 1) ∧ q._fadeDurationCount = (d : Int) - (j : Int)) := by
  have hstart := forwardRun_start n f d layout loop seq
  constructor
  · intro j hj
    obtain ⟨q, hq, hrun⟩ := hstart.frame_ticks j (by omega)
    exact ⟨q, hq, by simpa using hrun.cell_eq, by simpa using hrun.fading⟩
  · intro j hj
    obtain ⟨q, hq, hrun⟩ := hstart.phase (by omega) (by omega)
    obtain ⟨r, hr, hrun2⟩ := hrun.fading_ticks j hj
    refine ⟨r, ?_, by simpa using hrun2.cell_eq, ?_⟩
    · have hq2 : ((Game_Picture.initAnimation.setAnimationInit n f layout d).startAnimation 1
          loop seq).updateN f = some q := by simpa using hq
      rw [Game_Picture.updateN_add, hq2, Option.some_bind, hr]
    · rw [hrun2.fading]
      omega

/-- Witness of C9: `PA_INIT 4 10 連番 20`, then `PA_START` with type 1. -/
theorem timed_scenario_witness :
    2 ≤ 4 ∧ 1 ≤ 10 ∧
    (∀ j : Nat, j ≤ 20 → ∃ q,
      ((Game_Picture.initAnimation.setAnimationInit (4 : Nat) (10 : Nat) "連番"
        (20 : Nat)).startAnimation 1 false none).updateN (10 + j) = some q ∧
      q.cell = some (int 1) ∧ q._fadeDurationCount = ((20 : Nat) : Int) - (j : Int)) :=
  ⟨by decide, by decide, (timed_scenario 4 10 20 "連番" false none (by decide) (by decide)).2⟩

/-- C10: a picture with `n ≥ 1` cells at raw counter 0, frame counter `i`
below the frame interval `f` and `e` frames of fade left is started with
`startAnimation(1, false, seq)`.  Its timer-driven advances happen on the
ticks `e + (f - i) + j (f + d)`, `j = 0, 1, …` (`d` the fade duration).
Before the first advance and from advance `j` up to the next one
(`1 ≤ j ≤ n - 1`) the raw counter is `j` and `isAnimation()` is true; right
after advance `n` the raw counter is 0 again and `isAnimation()` is false. -/
theorem nonlooping_forward_halts_after_one_cycle (n f d e i : Nat) (p : Game_Picture)
    (seq : Option (List Int)) (hn : 1 ≤ n)
    (hcells : p._cellNumber = (n : Int)) (hframes : p._frameNumber = (f : Int))
    (hduration : p._fadeDuration = (d : Int)) (hcount : p._cellCount = int 0)
    (hframe : p._frameCount = int (i : Int)) (hi : i < f)
    (hfading : p._fadeDurationCount = (e : Int)) :
    (∀ t : Nat, t < e + (f - i) → ∃ q,
      (p.startAnimation 1 false seq).updateN t = some q ∧
      q.isAnimation = true ∧ q._cellCount = int 0) ∧
    (∀ j : Nat, 1 ≤ j → j < n → ∀ t : Nat,
      e + (f - i) + (j - 1) * (f + d) ≤ t → t < e + (f - i) + j * (f + d) → ∃ q,
      (p.startAnimation 1 false seq).updateN t = some q ∧
      q.isAnimation = true ∧ q._cellCount = int (j : Int)) ∧
    (∃ q, (p.startAnimation 1 false seq).updateN (e + (f - i) + (n - 1) * (f + d)) = some q ∧
      q.isAnimation = false ∧ q._cellCount = int 0) := by
  have hstart : ForwardRun n f d false (p.startAnimation 1 false seq) 0 e i :=
    ⟨rfl, rfl, rfl, hcells, hframes, hduration, hcount, hframe, hfading⟩
  refine ⟨?_, ?_, ?_⟩
  · intro t ht
    obtain ⟨q, e1, i1, hq, hrun⟩ := hstart.before_advance hi t ht
    exact ⟨q, hq, hrun.isAnimation_eq, by simpa using hrun.count⟩
  · intro j hj1 hjn t hlo hhi
    obtain ⟨q, hq, hrun⟩ := hstart.advances hi (j - 1) (by omega)
    have hj : j - 1 + 1 = j := by omega
    rw [hj] at hrun
    have hmul : j * (f + d) = (j - 1) * (f + d) + (f + d) := by
      conv_lhs => rw [← hj]
      rw [Nat.succ_mul]
    obtain ⟨r, e1, i1, hr, hrun2⟩ :=
      hrun.before_advance (by omega) (t - (e + (f - i) + (j - 1) * (f + d))) (by omega)
    refine ⟨r, ?_, hrun2.isAnimation_eq, hrun2.count⟩
    have hsplit : t = e + (f - i) + (j - 1) * (f + d)
        + (t - (e + (f - i) + (j - 1) * (f + d))) := by omega
    rw [hsplit, Game_Picture.updateN_add, hq, Option.some_bind]
    exact hr
  · by_cases h1 : n = 1
    · subst h1
      obtain ⟨q, hq, hc0, hanim, _⟩ := hstart.last_phase hi (by omega)
      exact ⟨q, by simpa using hq, hanim, hc0⟩
    · obtain ⟨q, hq, hrun⟩ := hstart.advances hi (n - 2) (by omega)
      obtain ⟨r, hr, hc0, hanim, _⟩ := hrun.last_phase (by omega) (by omega)
      refine ⟨r, ?_, hanim, hc0⟩
      have hsplit : e + (f - i) + (n - 1) * (f + d)
          = e + (f - i) + (n - 2) * (f + d) + (d + (f - 0)) := by
        have hn2 : n - 1 = n - 2 + 1 := by omega
        rw [hn2, Nat.succ_mul]
        omega
      rw [hsplit, Game_Picture.updateN_add, hq, Option.some_bind, hr]

/-- Witness of C10: three cells, two frames per cell, fade of one frame. -/
theorem nonlooping_forward_halts_after_one_cycle_witness :
    1 ≤ 3 ∧ 0 < 2 ∧
    ∃ q, ((Game_Picture.initAnimation.setAnimationInit 3 2 "V" 1).startAnimation 1 false
        none).updateN (0 + (2 - 0) + (3 - 1) * (2 + 1)) = some q ∧
      q.isAnimation = false ∧ q._cellCount = int 0 :=
  ⟨by decide, by decide,
    (nonlooping_forward_halts_after_one_cycle 3 2 1 0 0
      (Game_Picture.initAnimation.setAnimationInit 3 2 "V" 1) none (by decide) rfl rfl rfl rfl
      rfl (by decide) rfl).2.2⟩

/-! ## Playback in any mode -/

namespace Game_Picture

/-- The resolved cell depends on the play mode, the pattern, the number of
cells and the raw counter only. -/
theorem cell_congr (p q : Game_Picture) (htype : q._animationType = p._animationType)
    (harr : q._customArray = p._customArray) (hcells : q._cellNumber = p._cellNumber)
    (hcount : q._cellCount = p._cellCount) : q.cell = p.cell := by
  unfold cell
  rw [htype, harr, hcells, hcount]

/-- The cycle length depends on the play mode, the pattern and the number of
cells only. -/
theorem getCellNumber_congr (p q : Game_Picture) (htype : q._animationType = p._animationType)
    (harr : q._customArray = p._customArray) (hcells : q._cellNumber = p._cellNumber) :
    q.getCellNumber = p.getCellNumber := by
  unfold getCellNumber
  rw [htype, harr, hcells]

theorem sameSetup_refl (p : Game_Picture) : SameSetup p p :=
  ⟨rfl, rfl, rfl, rfl, rfl, rfl⟩

theorem sameSetup_trans {p q r : Game_Picture} (h1 : SameSetup p q) (h2 : SameSetup q r) :
    SameSetup p r := by
  obtain ⟨a1, a2, a3, a4, a5, a6⟩ := h1
  obtain ⟨b1, b2, b3, b4, b5, b6⟩ := h2
  exact ⟨b1.trans a1, b2.trans a2, b3.trans a3, b4.trans a4, b5.trans a5, b6.trans a6⟩

theorem setCell_sameSetup {p q : Game_Picture} {v : JsNum} (h : p.setCell v = some q) :
    SameSetup p q := by
  obtain ⟨L, _, _, h1, h2, _, h3, h4, _, h5, h6, _⟩ := setCell_fields p q v h
  exact ⟨h1, h2, h3, h4, h5, h6⟩

/-- The assignment keeps the frame counter, the loop flag and the animation
flag. -/
theorem setCell_flags {p q : Game_Picture} {v : JsNum} (h : p.setCell v = some q) :
    q._frameCount = p._frameCount ∧ q._loopFlg = p._loopFlg ∧
      q._animationFlg = p._animationFlg := by
  obtain ⟨L, _, _, _, _, h1, _, _, h2, _, _, h3⟩ := setCell_fields p q v h
  exact ⟨h1, h2, h3⟩

/-- A tick never writes the configuration, the play mode or the pattern. -/
theorem update_sameSetup {p q : Game_Picture} (h : p.update = some q) : SameSetup p q := by
  unfold update at h
  split_ifs at h with hfad hanim
  · simp only [Option.some.injEq] at h
    subst h
    exact ⟨rfl, rfl, rfl, rfl, rfl, rfl⟩
  · unfold updateAnimation at h
    simp only [hanim, Bool.not_true, Bool.false_eq_true, if_false] at h
    split_ifs at h with hzero
    · unfold addCellCount at h
      split at h
      · simp at h
      · next p2 hset =>
        have hs := setCell_sameSetup hset
        split_ifs at h
        · simp only [Option.some.injEq] at h
          subst h
          exact hs
        · simp only [Option.some.injEq] at h
          subst h
          exact hs
    · simp only [Option.some.injEq] at h
      subst h
      exact ⟨rfl, rfl, rfl, rfl, rfl, rfl⟩
  · simp only [Option.some.injEq] at h
    subst h
    exact sameSetup_refl p

theorem updateN_sameSetup (k : Nat) : ∀ {p q : Game_Picture}, p.updateN k = some q →
    SameSetup p q := by
  induction k with
  | zero =>
    intro p q h
    simp only [updateN, Option.some.injEq] at h
    subst h
    exact sameSetup_refl p
  | succ k ih =>
    intro p q h
    rw [updateN_succ] at h
    cases hu : p.update with
    | none => simp [hu] at h
    | some r =>
      rw [hu, Option.some_bind] at h
      exact sameSetup_trans (update_sameSetup hu) (ih h)

/-- The tick on which the frame counter wraps, in any mode, not at the last
raw index of the cycle: the raw counter advances and the fade is armed. -/
theorem update_advance (p : Game_Picture) (L c : Int) (cv : JsNum)
    (hanim : p.isAnimation = true) (hfade : p._fadeDurationCount = 0)
    (hframe : p._frameCount = int (p._frameNumber - 1)) (hf : 1 ≤ p._frameNumber)
    (hL : p.getCellNumber = some L) (hcell : p.cell = some cv)
    (hcount : p._cellCount = int c) (hc : 0 ≤ c) (hlt : c + 1 < L) :
    p.update = some { p with _frameCount := int 0
                             _cellCount := int (c + 1)
                             _prevCellCount := cv
                             _fadeDurationCount := p._fadeDuration } := by
  rw [update_of_not_fading p hfade hanim]
  have hmod : mod (int p._frameNumber) (int p._frameNumber) = int 0 := by
    rw [mod_int_of_nonneg _ _ (by omega) (by omega)]
    simp
  have hanim' : p._animationFlg = true := hanim
  have hwrap : mod (int (c + 1)) (int L) = int (c + 1) := by
    rw [mod_int_of_nonneg _ _ (by omega) (by omega), Int.emod_eq_of_lt (by omega) (by omega)]
  have hne : ¬ (c + 1 = 0) := by omega
  have hset := setCell_eq { p with _frameCount := int 0 } (int (c + 1)) L cv hL hcell
  have hne' : ¬ (c = c + 1) := by omega
  simp only [hcount, hwrap, strictNe, strictEq_int, hanim', hne', decide_False, Bool.not_false,
    if_true] at hset
  simp [updateAnimation, isAnimation, hanim', hframe, hmod, addCellCount, hcount, hset, hne]

/-- The tick on which the frame counter wraps, in any mode, at the last raw
index of the cycle: the raw counter returns to 0 and a picture that does not
loop halts. -/
theorem update_wrap (p : Game_Picture) (L c : Int) (cv : JsNum)
    (hanim : p.isAnimation = true) (hfade : p._fadeDurationCount = 0)
    (hframe : p._frameCount = int (p._frameNumber - 1)) (hf : 1 ≤ p._frameNumber)
    (hL : p.getCellNumber = some L) (hcell : p.cell = some cv)
    (hcount : p._cellCount = int c) (hc : 0 ≤ c) (hlast : c + 1 = L) :
    ∃ q, p.update = some q ∧ q._cellCount = int 0 ∧ q._frameCount = int 0 ∧
      q.isAnimation = p._loopFlg := by
  rw [update_of_not_fading p hfade hanim]
  have hmod : mod (int p._frameNumber) (int p._frameNumber) = int 0 := by
    rw [mod_int_of_nonneg _ _ (by omega) (by omega)]
    simp
  have hanim' : p._animationFlg = true := hanim
  have hwrap : mod (int (c + 1)) (int L) = int 0 := by
    rw [mod_int_of_nonneg _ _ (by omega) (by omega), hlast]
    simp
  have hset := setCell_eq { p with _frameCount := int 0 } (int (c + 1)) L cv hL hcell
  simp only [hcount, hwrap, hanim'] at hset
  cases hl : p._loopFlg <;> simp only [hl] at hset <;>
    by_cases h0 : (int c).strictNe (int 0) = true <;>
    simp [updateAnimation, isAnimation, hanim', hframe, hmod, addCellCount, hcount, hset, hl,
      h0]

end Game_Picture

namespace CycleRun

theorem run_isAnimation_eq {L f d : Nat} {loop : Bool} {p : Game_Picture} {c e i : Nat}
    (h : CycleRun L f d loop p c e i) : p.isAnimation = true := h.anim

/-- During a run the getter returns a value. -/
theorem cell_defined {L f d : Nat} {loop : Bool} {p : Game_Picture} {c e i : Nat}
    (h : CycleRun L f d loop p c e i) : ∃ cv, p.cell = some cv := by
  have hsome := Game_Picture.cell_isSome_iff_getCellNumber_isSome p
  rw [h.cycle] at hsome
  exact Option.isSome_iff_exists.mp hsome

/-- During a fade only the fade counter moves. -/
theorem run_fading_ticks {L f d : Nat} {loop : Bool} {p : Game_Picture} {c e i : Nat}
    (h : CycleRun L f d loop p c e i) (t : Nat) (ht : t ≤ e) :
    ∃ q, p.updateN t = some q ∧ CycleRun L f d loop q c (e - t) i := by
  refine ⟨_, Game_Picture.updateN_fading t p e h.fading ht, ?_⟩
  refine ⟨h.anim, h.looping, h.cycle, h.frames, h.duration, h.count, h.frame, ?_⟩
  show (e : Int) - (t : Int) = ((e - t : Nat) : Int)
  omega

/-- Without a fade, ticks that do not wrap the frame counter only count
frames. -/
theorem run_frame_ticks {L f d : Nat} {loop : Bool} {p : Game_Picture} {c i : Nat}
    (h : CycleRun L f d loop p c 0 i) (t : Nat) (ht : i + t < f) :
    ∃ q, p.updateN t = some q ∧ CycleRun L f d loop q c 0 (i + t) := by
  have hlt : (i : Int) + (t : Int) < p._frameNumber := by
    rw [h.frames]
    omega
  refine ⟨_, Game_Picture.updateN_frames t p i h.anim (by simpa using h.fading) h.frame
    (by omega) hlt, ?_⟩
  refine ⟨h.anim, h.looping, h.cycle, h.frames, h.duration, h.count, ?_, h.fading⟩
  show int ((i : Int) + (t : Int)) = int ((i + t : Nat) : Int)
  push_cast
  rfl

/-- The tick that wraps the frame counter advances the raw counter and arms
the fade. -/
theorem run_advance_tick {L f d : Nat} {loop : Bool} {p : Game_Picture} {c i : Nat}
    (h : CycleRun L f d loop p c 0 i) (hi : i + 1 = f) (hc : c + 1 < L) :
    ∃ q, p.update = some q ∧ CycleRun L f d loop q (c + 1) d 0 := by
  have hframe : p._frameCount = int (p._frameNumber - 1) := by
    rw [h.frame, h.frames]
    congr 1
    omega
  obtain ⟨cv, hcv⟩ := h.cell_defined
  refine ⟨_, Game_Picture.update_advance p L c cv h.anim (by simpa using h.fading) hframe
    (by rw [h.frames]; omega) h.cycle hcv h.count (by omega) (by omega), ?_⟩
  refine ⟨h.anim, h.looping, h.cycle, h.frames, h.duration, ?_, rfl, h.duration⟩
  show int ((c : Int) + 1) = int ((c + 1 : Nat) : Int)
  push_cast
  rfl

/-- The tick that wraps the raw counter back to 0 halts a picture that does
not loop. -/
theorem run_wrap_tick {L f d : Nat} {loop : Bool} {p : Game_Picture} {c i : Nat}
    (h : CycleRun L f d loop p c 0 i) (hi : i + 1 = f) (hc : c + 1 = L) :
    ∃ q, p.update = some q ∧ q._cellCount = int 0 ∧ q._frameCount = int 0 ∧
      q.isAnimation = loop := by
  have hframe : p._frameCount = int (p._frameNumber - 1) := by
    rw [h.frame, h.frames]
    congr 1
    omega
  obtain ⟨cv, hcv⟩ := h.cell_defined
  have hw := Game_Picture.update_wrap p L c cv h.anim (by simpa using h.fading) hframe
    (by rw [h.frames]; omega) h.cycle hcv h.count (by omega) (by omega)
  rw [h.looping] at hw
  exact hw

/-- Before the next advance the picture keeps animating at the same raw
counter. -/
theorem run_before_advance {L f d : Nat} {loop : Bool} {p : Game_Picture} {c e i : Nat}
    (h : CycleRun L f d loop p c e i) (hi : i < f) (t : Nat) (ht : t < e + (f - i)) :
    ∃ q e1 i1, p.updateN t = some q ∧ CycleRun L f d loop q c e1 i1 := by
  by_cases hte : t ≤ e
  · obtain ⟨q, hq, hrun⟩ := h.run_fading_ticks t hte
    exact ⟨q, _, _, hq, hrun⟩
  · obtain ⟨q, hq, hrun⟩ := h.run_fading_ticks e le_rfl
    rw [Nat.sub_self] at hrun
    obtain ⟨r, hr, hrun2⟩ := hrun.run_frame_ticks (t - e) (by omega)
    refine ⟨r, _, _, ?_, hrun2⟩
    have hsplit : t = e + (t - e) := by omega
    rw [hsplit, Game_Picture.updateN_add, hq, Option.some_bind, hr]

/-- The state right before the wrapping tick. -/
theorem run_before_wrap {L f d : Nat} {loop : Bool} {p : Game_Picture} {c e i : Nat}
    (h : CycleRun L f d loop p c e i) (hi : i < f) :
    ∃ q, p.updateN (e + (f - i - 1)) = some q ∧ CycleRun L f d loop q c 0 (f - 1) := by
  obtain ⟨q, hq, hrun⟩ := h.run_fading_ticks e le_rfl
  rw [Nat.sub_self] at hrun
  obtain ⟨r, hr, hrun2⟩ := hrun.run_frame_ticks (f - i - 1) (by omega)
  have hidx : i + (f - i - 1) = f - 1 := by omega
  rw [hidx] at hrun2
  exact ⟨r, by rw [Game_Picture.updateN_add, hq, Option.some_bind, hr], hrun2⟩

/-- A whole phase, the rest of a fade and of a frame interval, ends with the
next raw counter and a fresh fade. -/
theorem run_phase {L f d : Nat} {loop : Bool} {p : Game_Picture} {c e i : Nat}
    (h : CycleRun L f d loop p c e i) (hi : i < f) (hc : c + 1 < L) :
    ∃ q, p.updateN (e + (f - i)) = some q ∧ CycleRun L f d loop q (c + 1) d 0 := by
  obtain ⟨q, hq, hrun⟩ := h.run_before_wrap hi
  obtain ⟨r, hr, hrun2⟩ := hrun.run_advance_tick (by omega) hc
  refine ⟨r, ?_, hrun2⟩
  have hsplit : e + (f - i) = e + (f - i - 1) + 1 := by omega
  rw [hsplit, Game_Picture.updateN_add, hq, Option.some_bind]
  simpa [Game_Picture.updateN] using hr

/-- The last phase of a cycle ends at raw counter 0, halted unless looping. -/
theorem run_last_phase {L f d : Nat} {loop : Bool} {p : Game_Picture} {c e i : Nat}
    (h : CycleRun L f d loop p c e i) (hi : i < f) (hc : c + 1 = L) :
    ∃ q, p.updateN (e + (f - i)) = some q ∧ q._cellCount = int 0 ∧ q.isAnimation = loop := by
  obtain ⟨q, hq, hrun⟩ := h.run_before_wrap hi
  obtain ⟨r, hr, h1, _, h3⟩ := hrun.run_wrap_tick (by omega) hc
  refine ⟨r, ?_, h1, h3⟩
  have hsplit : e + (f - i) = e + (f - i - 1) + 1 := by omega
  rw [hsplit, Game_Picture.updateN_add, hq, Option.some_bind]
  simpa [Game_Picture.updateN] using hr

/-- From raw counter `c`, advance number `j + 1` is complete after
`e + (f - i) + j * (f + d)` ticks, as long as it stays inside the cycle. -/
theorem run_advances {L f d : Nat} {loop : Bool} {p : Game_Picture} {c e i : Nat}
    (h : CycleRun L f d loop p c e i) (hi : i < f) (j : Nat) (hj : c + j + 1 < L) :
    ∃ q, p.updateN (e + (f - i) + j * (f + d)) = some q ∧
      CycleRun L f d loop q (c + j + 1) d 0 := by
  induction j with
  | zero =>
    obtain ⟨q, hq, hrun⟩ := h.run_phase hi (by omega)
    exact ⟨q, by simpa using hq, by simpa using hrun⟩
  | succ j ih =>
    obtain ⟨q, hq, hrun⟩ := ih (by omega)
    obtain ⟨r, hr, hrun2⟩ := hrun.run_phase (by omega) (by omega)
    refine ⟨r, ?_, hrun2⟩
    have hsplit : e + (f - i) + (j + 1) * (f + d) = e + (f - i) + j * (f + d) + (d + (f - 0)) := by
      rw [Nat.succ_mul]
      omega
    rw [hsplit, Game_Picture.updateN_add, hq, Option.some_bind, hr]

end CycleRun

/-- C11: an animating picture at raw counter `c` with `0 < c < L` (`L` the
effective cycle length of its mode), frame counter `i` below the frame
interval `f` and `e` frames of fade left receives `stopAnimation(false)`.
Its timer-driven advances then happen on the ticks `e + (f - i) + j (f + d)`,
`j = 0, 1, …`.  Up to the first advance, and from advance `j` up to the next
one while `c + j < L`, the raw counter is `c + j` and `isAnimation()` is
true; right after advance `L - c` the raw counter is 0, `isAnimation()` is
false and the resolved cell is the one of raw counter 0. -/
theorem nonforced_stop_coasts_to_cycle_start (L f d e i c : Nat) (p : Game_Picture)
    (hanim : p.isAnimation = true) (hcycle : p.getCellNumber = some (L : Int))
    (hframes : p._frameNumber = (f : Int)) (hduration : p._fadeDuration = (d : Int))
    (hcount : p._cellCount = int (c : Int)) (_hc : 0 < c) (hcL : c < L)
    (hframe : p._frameCount = int (i : Int)) (hi : i < f)
    (hfading : p._fadeDurationCount = (e : Int)) :
    (∀ t : Nat, t < e + (f - i) → ∃ q,
      (p.stopAnimation false).updateN t = some q ∧
      q.isAnimation = true ∧ q._cellCount = int (c : Int)) ∧
    (∀ j : Nat, 1 ≤ j → c + j < L → ∀ t : Nat,
      e + (f - i) + (j - 1) * (f + d) ≤ t → t < e + (f - i) + j * (f + d) → ∃ q,
      (p.stopAnimation false).updateN t = some q ∧
      q.isAnimation = true ∧ q._cellCount = int ((c + j : Nat) : Int)) ∧
    (∃ q, (p.stopAnimation false).updateN (e + (f - i) + (L - c - 1) * (f + d)) = some q ∧
      q.isAnimation = false ∧ q._cellCount = int 0 ∧
      q.cell = Game_Picture.cell { p with _cellCount := int 0 }) := by
  have hstart : CycleRun L f d false (p.stopAnimation false) c e i :=
    ⟨hanim, rfl, hcycle, hframes, hduration, hcount, hframe, hfading⟩
  refine ⟨?_, ?_, ?_⟩
  · intro t ht
    obtain ⟨q, e1, i1, hq, hrun⟩ := hstart.run_before_advance hi t ht
    exact ⟨q, hq, hrun.run_isAnimation_eq, hrun.count⟩
  · intro j hj1 hjL t hlo hhi
    obtain ⟨q, hq, hrun⟩ := hstart.run_advances hi (j - 1) (by omega)
    have hj : c + (j - 1) + 1 = c + j := by omega
    rw [hj] at hrun
    have hmul : j * (f + d) = (j - 1) * (f + d) + (f + d) := by
      have hj' : j = j - 1 + 1 := by omega
      conv_lhs => rw [hj']
      rw [Nat.succ_mul]
    obtain ⟨r, e1, i1, hr, hrun2⟩ :=
      hrun.run_before_advance (by omega) (t - (e + (f - i) + (j - 1) * (f + d))) (by omega)
    refine ⟨r, ?_, hrun2.run_isAnimation_eq, hrun2.count⟩
    have hsplit : t = e + (f - i) + (j - 1) * (f + d)
        + (t - (e + (f - i) + (j - 1) * (f + d))) := by omega
    rw [hsplit, Game_Picture.updateN_add, hq, Option.some_bind]
    exact hr
  · have hlast : ∃ q, (p.stopAnimation false).updateN (e + (f - i) + (L - c - 1) * (f + d))
        = some q ∧ q._cellCount = int 0 ∧ q.isAnimation = false := by
      by_cases h1 : c + 1 = L
      · obtain ⟨q, hq, hc0, hanim0⟩ := hstart.run_last_phase hi h1
        have hz : L - c - 1 = 0 := by omega
        exact ⟨q, by simpa [hz] using hq, hc0, hanim0⟩
      · obtain ⟨q, hq, hrun⟩ := hstart.run_advances hi (L - c - 2) (by omega)
        obtain ⟨r, hr, hc0, hanim0⟩ := hrun.run_last_phase (by omega) (by omega)
        refine ⟨r, ?_, hc0, hanim0⟩
        have hsplit : e + (f - i) + (L - c - 1) * (f + d)
            = e + (f - i) + (L - c - 2) * (f + d) + (d + (f - 0)) := by
          have hL2 : L - c - 1 = L - c - 2 + 1 := by omega
          rw [hL2, Nat.succ_mul]
          omega
        rw [hsplit, Game_Picture.updateN_add, hq, Option.some_bind, hr]
    obtain ⟨q, hq, hc0, hanim0⟩ := hlast
    refine ⟨q, hq, hanim0, hc0, ?_⟩
    obtain ⟨h1, _, h3, h4, _, _⟩ := Game_Picture.updateN_sameSetup _ hq
    exact Game_Picture.cell_congr _ q h3 h4 h1 hc0

/-- Witness of C11: the picture `loopingPicture421` at raw counter 2 of 4. -/
theorem nonforced_stop_coasts_to_cycle_start_witness :
    loopingPicture421.isAnimation = true ∧ 0 < 2 ∧ 2 < 4 ∧
    ∃ q, (loopingPicture421.stopAnimation false).updateN (0 + (2 - 0) + (4 - 2 - 1) * (2 + 1))
        = some q ∧
      q.isAnimation = false ∧ q._cellCount = int 0 ∧
      q.cell = Game_Picture.cell { loopingPicture421 with _cellCount := int 0 } :=
  ⟨by decide, by decide, by decide,
    (nonforced_stop_coasts_to_cycle_start 4 2 1 0 0 2 loopingPicture421 (by decide) (by decide)
      rfl rfl rfl (by decide) (by decide) rfl (by decide) rfl).2.2⟩

/-! ## Forced stop -/

/-- A tick of a halted picture touches the fade counter at most. -/
theorem Game_Picture.update_halted (p : Game_Picture) (h : p.isAnimation = false) :
    ∃ x : Int, p.update = some { p with _fadeDurationCount := x } := by
  by_cases hf : p._fadeDurationCount = 0
  · refine ⟨p._fadeDurationCount, ?_⟩
    have hp : ({ p with _fadeDurationCount := p._fadeDurationCount } : Game_Picture) = p := rfl
    rw [hp]
    simp [Game_Picture.update, Game_Picture.isFading, hf, h]
  · exact ⟨p._fadeDurationCount - 1, Game_Picture.update_of_fading p hf⟩

/-- Ticks of a halted picture touch the fade counter at most. -/
theorem Game_Picture.updateN_halted (k : Nat) : ∀ p : Game_Picture, p.isAnimation = false →
    ∃ x : Int, p.updateN k = some { p with _fadeDurationCount := x } := by
  induction k with
  | zero =>
    intro p _
    exact ⟨p._fadeDurationCount, rfl⟩
  | succ k ih =>
    intro p h
    obtain ⟨y, hy⟩ := Game_Picture.update_halted p h
    obtain ⟨x, hx⟩ := ih { p with _fadeDurationCount := y } h
    exact ⟨x, by rw [Game_Picture.updateN_succ, hy, Option.some_bind, hx]⟩

/-- C12: `stopAnimation(true)` clears the animation flag (and the loop flag)
and writes nothing else, so that the raw counter, the resolved cell, the
frame counter, the fade counter and the configuration are as before; after
any number of `update` calls the picture is still halted with the same raw
counter, resolved cell, frame counter and configuration. -/
theorem forced_stop_halts_in_place (p : Game_Picture) :
    (p.stopAnimation true).isAnimation = false ∧
    p.stopAnimation true = { p with _loopFlg := false, _animationFlg := false } ∧
    (p.stopAnimation true).cell = p.cell ∧
    ∀ k : Nat, ∃ q, (p.stopAnimation true).updateN k = some q ∧
      q._cellCount = p._cellCount ∧ q.cell = p.cell ∧ q._frameCount = p._frameCount ∧
      q.isAnimation = false ∧ SameSetup p q := by
  refine ⟨rfl, rfl, rfl, ?_⟩
  intro k
  obtain ⟨x, hx⟩ := Game_Picture.updateN_halted k (p.stopAnimation true) rfl
  exact ⟨_, hx, rfl, rfl, rfl, rfl, ⟨rfl, rfl, rfl, rfl, rfl, rfl⟩⟩

/-! ## Degenerate cycles -/

/-- In PingPong mode with a single cell every assignment stores `NaN`, and
the getter then returns `NaN`. -/
theorem pingpong_single_cell_assignment (p : Game_Picture) (v : JsNum)
    (htype : p._animationType = 2) (hcells : p._cellNumber = 1) :
    ∃ q, p.setCell v = some q ∧ q._cellCount = nan ∧ q.cell = some nan := by
  have hL : p.getCellNumber = some 0 := by
    simp [Game_Picture.getCellNumber, htype, hcells]
  obtain ⟨c, hc⟩ : ∃ c, p.cell = some c := by
    simp [Game_Picture.cell, htype]
  have hmod : mod v (int 0) = nan := by
    cases v <;> simp [mod]
  refine ⟨_, Game_Picture.setCell_eq p v 0 c hL hc, ?_, ?_⟩
  · rw [hmod]
    split_ifs <;> rfl
  · rw [hmod]
    split_ifs <;> simp [Game_Picture.cell, htype, hcells] <;> rfl

/-- C13: a picture shown without `PA_INIT` has one cell; after `PA_START 1 2`
its cycle length is 0, the assignment `cell = 0` leaves the raw counter and
the resolved cell `NaN`, and so does the first `update`, after which the
picture is still animating. -/
theorem pingpong_single_cell_is_nan :
    pingPongPicture1._cellNumber = 1 ∧ pingPongPicture1._animationType = 2 ∧
    pingPongPicture1.getCellNumber = some 0 ∧
    (pingPongPicture1.setCell (int 0)).map (fun q => q._cellCount) = some nan ∧
    (pingPongPicture1.setCell (int 0)).bind Game_Picture.cell = some nan ∧
    (pingPongPicture1.update).map (fun q => q._cellCount) = some nan ∧
    (pingPongPicture1.update).bind Game_Picture.cell = some nan ∧
    (pingPongPicture1.update).map Game_Picture.isAnimation = some true := by
  decide

/-- With a positive cycle length the assignment of a non-negative value
stores a raw counter inside the cycle. -/
theorem setCell_counter_in_cycle (p : Game_Picture) (v L : Int)
    (hL : p.getCellNumber = some L) (hpos : 0 < L) (hv : 0 ≤ v) :
    ∃ q c, p.setCell (int v) = some q ∧ q._cellCount = int c ∧ 0 ≤ c ∧ c < L ∧
      q.getCellNumber = some L := by
  obtain ⟨cv, hcv⟩ : ∃ cv, p.cell = some cv := by
    have h := Game_Picture.cell_isSome_iff_getCellNumber_isSome p
    rw [hL] at h
    exact Option.isSome_iff_exists.mp h
  have hset := Game_Picture.setCell_eq p (int v) L cv hL hcv
  rw [mod_int_of_nonneg v L hv hpos] at hset
  refine ⟨_, v % L, hset, ?_, Int.emod_nonneg _ (by omega), Int.emod_lt_of_pos _ hpos, ?_⟩
  · split_ifs <;> rfl
  · split_ifs <;> exact hL

/-- C14: `startAnimation` keeps the raw counter while it changes the cycle
length.  The picture `startedPicture410` is at raw counter 3 of 4 after three
ticks; `PA_START 1 3 [1,2]` then leaves the raw counter 3 with cycle length
2, and the `cell` getter reads the pattern out of range and returns `NaN`. -/
theorem startAnimation_leaves_counter_outside_cycle :
    ∃ q, startedPicture410.updateN 3 = some q ∧ q._cellCount = int 3 ∧
      q.getCellNumber = some 4 ∧
      (pluginCommandPictureAnimation_PA_START plainHost ["1", "3", "[1,2]"] false q)._cellCount
        = int 3 ∧
      (pluginCommandPictureAnimation_PA_START plainHost ["1", "3", "[1,2]"] false
        q).getCellNumber = some 2 ∧
      (pluginCommandPictureAnimation_PA_START plainHost ["1", "3", "[1,2]"] false q).cell
        = some nan :=
  ⟨_, rfl, by decide, by decide, by decide, by decide, by decide⟩

/-! ## Initialisation -/

/-- The fields `setAnimationInit` writes: the four configuration values and
the two counters; every other field is that of the receiver. -/
theorem setAnimationInit_writes (p : Game_Picture) (cellNumber frameNumber : Int)
    (direction : String) (fadeDuration : Int) :
    p.setAnimationInit cellNumber frameNumber direction fadeDuration
      = { p with _cellNumber := cellNumber, _frameNumber := frameNumber,
                 _direction := direction, _fadeDuration := fadeDuration,
                 _cellCount := int 0, _frameCount := int 0 } :=
  rfl

/-- C15: initialisation resets playback.  `setAnimationInit` has one caller,
`showPicture`, and its receiver there is the picture the host has just
created in place of whatever the id held before.  For every prior screen,
hence every prior state of the picture under the id, and every staged
`(cellCount, frameInterval, layoutMode, fadeDuration)` that `showPicture`
passes on (`cellCount > 1`), the picture that the call yields has exactly
these four values as its configuration and the default playback fields: raw
cell counter 0, frame counter 0, fade counter 0, animation type 0, no
pattern, no loop, not animating.  The same holds for `setAnimationInit` on a
new picture with any four values.  On every receiver the function writes the
four values and sets the two counters to 0, and writes no other field. -/
theorem setAnimationInit_resets_playback (s : Game_Screen) (realPictureId : Nat)
    (cellNumber frameNumber : Int) (direction : String) (fadeDuration : Int)
    (hc : 1 < cellNumber) :
    (∃ q : Game_Picture,
      ((s.setPicturesAnimation cellNumber frameNumber direction
          fadeDuration).showPicture realPictureId)._pictures realPictureId = some q ∧
      q = Game_Picture.initAnimation.setAnimationInit cellNumber frameNumber direction
        fadeDuration ∧
      q._cellNumber = cellNumber ∧ q._frameNumber = frameNumber ∧
      q._direction = direction ∧ q._fadeDuration = fadeDuration ∧
      q._cellCount = int 0 ∧ q._frameCount = int 0 ∧ q._fadeDurationCount = 0 ∧
      q._animationType = 0 ∧ q._customArray = none ∧ q._loopFlg = false ∧
      q._prevCellCount = int 0 ∧ q.isAnimation = false ∧ q.isFading = false ∧
      q.cell = some (int 0)) ∧
    (∀ (c f : Int) (dir : String) (d : Int) (q : Game_Picture),
      q = Game_Picture.initAnimation.setAnimationInit c f dir d →
      q._cellNumber = c ∧ q._frameNumber = f ∧ q._direction = dir ∧ q._fadeDuration = d ∧
      q._cellCount = int 0 ∧ q._frameCount = int 0 ∧ q._fadeDurationCount = 0 ∧
      q._animationType = 0 ∧ q._customArray = none ∧ q._loopFlg = false ∧
      q._prevCellCount = int 0 ∧ q.isAnimation = false ∧ q.isFading = false) ∧
    (∀ p : Game_Picture,
      p.setAnimationInit cellNumber frameNumber direction fadeDuration
        = { p with _cellNumber := cellNumber, _frameNumber := frameNumber,
                   _direction := direction, _fadeDuration := fadeDuration,
                   _cellCount := int 0, _frameCount := int 0 }) := by
  refine ⟨⟨Game_Picture.initAnimation.setAnimationInit cellNumber frameNumber direction
    fadeDuration, ?_, rfl, rfl, rfl, rfl, rfl, rfl, rfl, rfl, rfl, rfl, rfl, rfl, rfl, rfl,
    rfl⟩, ?_, fun _ => rfl⟩
  · simp [Game_Screen.showPicture, Game_Screen.hostShowPicture,
      Game_Screen.setPicturesAnimation, Game_Screen.clearPicturesAnimation, hc]
  · intro c f dir d q hq
    subst hq
    exact ⟨rfl, rfl, rfl, rfl, rfl, rfl, rfl, rfl, rfl, rfl, rfl, rfl, rfl⟩

/-- Witness of C15: `PA_INIT 4 10 V 20` and a show of picture 1 on a screen
whose picture 1 was animating and fading. -/
theorem setAnimationInit_resets_playback_witness :
    (1 : Int) < 4 ∧
    ∃ q : Game_Picture,
      ((({ _pa := none,
           _pictures := fun k => if k = 1 then some fadingPicture432 else none
         } : Game_Screen).setPicturesAnimation 4 10 "V" 20).showPicture 1)._pictures 1
        = some q ∧
      q._cellNumber = 4 ∧ q._frameNumber = 10 ∧ q._direction = "V" ∧ q._fadeDuration = 20 ∧
      q._cellCount = int 0 ∧ q._frameCount = int 0 ∧ q._fadeDurationCount = 0 ∧
      q._animationType = 0 ∧ q.isAnimation = false :=
  ⟨by decide,
    match (setAnimationInit_resets_playback
      { _pa := none, _pictures := fun k => if k = 1 then some fadingPicture432 else none }
      1 4 10 "V" 20 (by decide)).1 with
    | ⟨q, h, _, h1, h2, h3, h4, h5, h6, h7, h8, _, _, _, h9, _, _⟩ =>
      ⟨q, h, h1, h2, h3, h4, h5, h6, h7, h8, h9⟩⟩

/-! ## Pattern argument -/

/-- C16: the documented form `[3,1,2]` is split at the commas into `[3`, `1`
and `2]`; `parseInt("[3")` is `NaN`, so the first element becomes 0 and is
clamped to 1: `getArgArrayNumber` returns `[1, 1, 2]`, which `PA_START`
stores, and the one-element pattern `[5]` becomes `[1]`. -/
theorem getArgArrayNumber_loses_first_element :
    getArgArrayNumber plainHost (some "[3,1,2]") [1, 200] = [1, 1, 2] ∧
    (pluginCommandPictureAnimation_PA_START plainHost ["1", "3", "[3,1,2]"] false
      Game_Picture.initAnimation)._customArray = some [1, 1, 2] ∧
    getArgArrayNumber plainHost (some "[5]") [1, 200] = [1] ∧
    getArgArrayNumber plainHost (some "[1,2,1,3,1,4]") [1, 200] = [1, 2, 1, 3, 1, 4] := by
  decide

/-! ## Banded layouts -/

/-- Two different bands of width `w` starting at multiples of `w` share no
point. -/
theorem bands_disjoint (w x : ℚ) (j k : Int) (hjk : j < k)
    (hj : (j : ℚ) * w ≤ x ∧ x < ((j : ℚ) + 1) * w) (hk : (k : ℚ) * w ≤ x ∧ x < ((k : ℚ) + 1) * w) :
    False := by
  have hjk' : (j : ℚ) + 1 ≤ (k : ℚ) := by exact_mod_cast hjk
  have hw : 0 < w := by nlinarith [hk.1, hk.2]
  nlinarith [hj.2, hk.1, mul_le_mul_of_nonneg_right hjk' hw.le]

/-- The `n` bands of width `D / n` cover `[0, D)`. -/
theorem bands_cover (D x : ℚ) (n : Int) (hn : 1 ≤ n) (hx0 : 0 ≤ x) (hxD : x < D) :
    ∃ k : Int, 0 ≤ k ∧ k < n ∧ (k : ℚ) * (D / (n : ℚ)) ≤ x ∧ x < ((k : ℚ) + 1) * (D / (n : ℚ)) := by
  have hnq : (0 : ℚ) < (n : ℚ) := by exact_mod_cast (by omega : (0 : Int) < n)
  have hD : 0 < D := lt_of_le_of_lt hx0 hxD
  have hw : 0 < D / (n : ℚ) := div_pos hD hnq
  refine ⟨⌊x / (D / (n : ℚ))⌋, Int.floor_nonneg.mpr (div_nonneg hx0 hw.le), ?_, ?_, ?_⟩
  · rw [Int.floor_lt, div_lt_iff₀ hw]
    have : (n : ℚ) * (D / (n : ℚ)) = D := by field_simp
    rw [this]
    exact hxD
  · have h := Int.floor_le (x / (D / (n : ℚ)))
    rwa [le_div_iff₀ hw] at h
  · have h := Int.lt_floor_add_one (x / (D / (n : ℚ)))
    rwa [div_lt_iff₀ hw] at h

/-- C17: for `n ≥ 1` cells, a cell index `0 ≤ i < n` and a sprite whose bitmap
is the picture's bitmap `b`, `updateAnimation` sets, in the vertical layout,
the frame with `x = 0`, full width and `y` from `i * (height / n)` to
`(i + 1) * (height / n)`, and in the horizontal layout the frame with
`y = 0`, full height and `x` from `i * (width / n)` to `(i + 1) * (width / n)`.
For every extent `D` the bands `[k * D/n, (k + 1) * D/n)`, `0 ≤ k < n`, are
pairwise disjoint, cover `[0, D)` and lie inside it. -/
theorem banded_layout_frames (n i : Int) (b : Bitmap) (fr : Frame) (bitmaps : List Bitmap)
    (hn : 1 ≤ n) (hi0 : 0 ≤ i) (hin : i < n) :
    (∀ direction : String, direction = "縦" ∨ direction = "V" → ∃ s,
      Sprite_Picture.updateAnimation direction n bitmaps (some b) ⟨some b, fr⟩ i = some s ∧
      s.frame.x = 0 ∧ s.frame.width = b.width ∧
      s.frame.y = (i : ℚ) * (b.height / (n : ℚ)) ∧
      s.frame.y + s.frame.height = ((i : ℚ) + 1) * (b.height / (n : ℚ)) ∧
      (0 ≤ b.height → 0 ≤ s.frame.y ∧ s.frame.y + s.frame.height ≤ b.height)) ∧
    (∀ direction : String, direction = "横" ∨ direction = "H" → ∃ s,
      Sprite_Picture.updateAnimation direction n bitmaps (some b) ⟨some b, fr⟩ i = some s ∧
      s.frame.y = 0 ∧ s.frame.height = b.height ∧
      s.frame.x = (i : ℚ) * (b.width / (n : ℚ)) ∧
      s.frame.x + s.frame.width = ((i : ℚ) + 1) * (b.width / (n : ℚ)) ∧
      (0 ≤ b.width → 0 ≤ s.frame.x ∧ s.frame.x + s.frame.width ≤ b.width)) ∧
    (∀ D : ℚ,
      (∀ j k : Int, 0 ≤ j → j < n → 0 ≤ k → k < n → j ≠ k → ∀ x : ℚ,
        ¬ (((j : ℚ) * (D / (n : ℚ)) ≤ x ∧ x < ((j : ℚ) + 1) * (D / (n : ℚ))) ∧
           ((k : ℚ) * (D / (n : ℚ)) ≤ x ∧ x < ((k : ℚ) + 1) * (D / (n : ℚ))))) ∧
      (∀ x : ℚ, 0 ≤ x → x < D → ∃ k : Int, 0 ≤ k ∧ k < n ∧
        (k : ℚ) * (D / (n : ℚ)) ≤ x ∧ x < ((k : ℚ) + 1) * (D / (n : ℚ))) ∧
      (0 ≤ D → ∀ k : Int, 0 ≤ k → k < n → ∀ x : ℚ,
        (k : ℚ) * (D / (n : ℚ)) ≤ x → x < ((k : ℚ) + 1) * (D / (n : ℚ)) → 0 ≤ x ∧ x < D)) := by
  have hnq : (0 : ℚ) < (n : ℚ) := by exact_mod_cast (by omega : (0 : Int) < n)
  have hiq : (0 : ℚ) ≤ (i : ℚ) := by exact_mod_cast hi0
  have hinq : (i : ℚ) + 1 ≤ (n : ℚ) := by exact_mod_cast hin
  have hinside : ∀ D : ℚ, 0 ≤ D →
      0 ≤ (i : ℚ) * (D / (n : ℚ)) ∧ (i : ℚ) * (D / (n : ℚ)) + D / (n : ℚ) ≤ D := by
    intro D hD
    have hw : 0 ≤ D / (n : ℚ) := div_nonneg hD hnq.le
    have hfull : (n : ℚ) * (D / (n : ℚ)) = D := by field_simp
    refine ⟨mul_nonneg hiq hw, ?_⟩
    calc (i : ℚ) * (D / (n : ℚ)) + D / (n : ℚ) = ((i : ℚ) + 1) * (D / (n : ℚ)) := by ring
      _ ≤ (n : ℚ) * (D / (n : ℚ)) := mul_le_mul_of_nonneg_right hinq hw
      _ = D := hfull
  refine ⟨?_, ?_, ?_⟩
  · intro direction hdir
    refine ⟨⟨some b, ⟨0, (i : ℚ) * (b.height / (n : ℚ)), b.width, b.height / (n : ℚ)⟩⟩,
      ?_, rfl, rfl, rfl, ?_, ?_⟩
    · rcases hdir with rfl | rfl <;> simp [Sprite_Picture.updateAnimation]
    · show (i : ℚ) * (b.height / (n : ℚ)) + b.height / (n : ℚ) = _
      ring
    · exact hinside b.height
  · intro direction hdir
    refine ⟨⟨some b, ⟨(i : ℚ) * (b.width / (n : ℚ)), 0, b.width / (n : ℚ), b.height⟩⟩,
      ?_, rfl, rfl, rfl, ?_, ?_⟩
    · rcases hdir with rfl | rfl <;> simp [Sprite_Picture.updateAnimation]
    · show (i : ℚ) * (b.width / (n : ℚ)) + b.width / (n : ℚ) = _
      ring
    · exact hinside b.width
  · intro D
    refine ⟨?_, ?_, ?_⟩
    · intro j k _ _ _ _ hjk x hx
      rcases lt_or_gt_of_ne hjk with h | h
      · exact bands_disjoint _ x j k h hx.1 hx.2
      · exact bands_disjoint _ x k j h hx.2 hx.1
    · intro x hx0 hxD
      exact bands_cover D x n hn hx0 hxD
    · intro hD k hk0 hkn x hlo hhi
      have hw : 0 ≤ D / (n : ℚ) := div_nonneg hD hnq.le
      have hk0' : (0 : ℚ) ≤ (k : ℚ) := by exact_mod_cast hk0
      have hkn' : (k : ℚ) + 1 ≤ (n : ℚ) := by exact_mod_cast hkn
      have hfull : (n : ℚ) * (D / (n : ℚ)) = D := by field_simp
      constructor
      · exact le_trans (mul_nonneg hk0' hw) hlo
      · calc x < ((k : ℚ) + 1) * (D / (n : ℚ)) := hhi
          _ ≤ (n : ℚ) * (D / (n : ℚ)) := mul_le_mul_of_nonneg_right hkn' hw
          _ = D := hfull

/-- Witness of C17: cell 1 of 4 on a bitmap of 100 by 400. -/
theorem banded_layout_frames_witness :
    (1 : Int) ≤ 4 ∧ (0 : Int) ≤ 1 ∧ (1 : Int) < 4 ∧
    ∃ s, Sprite_Picture.updateAnimation "V" 4 [] (some ⟨100, 400⟩)
        ⟨some ⟨100, 400⟩, ⟨0, 0, 100, 400⟩⟩ 1 = some s ∧
      s.frame.x = 0 ∧ s.frame.width = (⟨100, 400⟩ : Bitmap).width ∧
      s.frame.y = ((1 : Int) : ℚ) * ((⟨100, 400⟩ : Bitmap).height / ((4 : Int) : ℚ)) ∧
      s.frame.y + s.frame.height
        = (((1 : Int) : ℚ) + 1) * ((⟨100, 400⟩ : Bitmap).height / ((4 : Int) : ℚ)) ∧
      (0 ≤ (⟨100, 400⟩ : Bitmap).height →
        0 ≤ s.frame.y ∧ s.frame.y + s.frame.height ≤ (⟨100, 400⟩ : Bitmap).height) :=
  ⟨by decide, by decide, by decide,
    (banded_layout_frames 4 1 ⟨100, 400⟩ ⟨0, 0, 100, 400⟩ [] (by decide) (by decide)
      (by decide)).1 "V" (Or.inr rfl)⟩

/-! ## Cross-fade opacity -/

/-- C20: `prevCellOpacity()` is `o * fadeRemaining / fadeDuration` when
`fadeDuration` is not 0 and 0 when it is 0, `o` the opacity of the picture;
for `0 ≤ fadeRemaining ≤ fadeDuration` and `o ≥ 0` it lies in `[0, o]`; it is
`o` when `fadeRemaining = fadeDuration > 0` and 0 when `fadeRemaining = 0`. -/
theorem prevCellOpacity_cross_fade (p : Game_Picture) (o : ℚ) :
    (p._fadeDuration ≠ 0 →
      p.prevCellOpacity o = o * (p._fadeDurationCount : ℚ) / (p._fadeDuration : ℚ)) ∧
    (p._fadeDuration = 0 → p.prevCellOpacity o = 0) ∧
    (0 ≤ p._fadeDurationCount → p._fadeDurationCount ≤ p._fadeDuration → 0 ≤ o →
      0 ≤ p.prevCellOpacity o ∧ p.prevCellOpacity o ≤ o) ∧
    (0 < p._fadeDuration → p._fadeDurationCount = p._fadeDuration → p.prevCellOpacity o = o) ∧
    (p._fadeDurationCount = 0 → p.prevCellOpacity o = 0) := by
  have hformula : p._fadeDuration ≠ 0 →
      p.prevCellOpacity o = o * (p._fadeDurationCount : ℚ) / (p._fadeDuration : ℚ) := by
    intro hd
    simp only [Game_Picture.prevCellOpacity, hd, if_false]
    ring
  refine ⟨hformula, ?_, ?_, ?_, ?_⟩
  · intro hd
    simp [Game_Picture.prevCellOpacity, hd]
  · intro hc0 hcd ho
    by_cases hd : p._fadeDuration = 0
    · simp [Game_Picture.prevCellOpacity, hd, ho]
    · rw [hformula hd]
      have hdpos : (0 : ℚ) < (p._fadeDuration : ℚ) := by
        exact_mod_cast (by omega : 0 < p._fadeDuration)
      have hc0' : (0 : ℚ) ≤ (p._fadeDurationCount : ℚ) := by exact_mod_cast hc0
      have hcd' : (p._fadeDurationCount : ℚ) ≤ (p._fadeDuration : ℚ) := by exact_mod_cast hcd
      constructor
      · exact div_nonneg (mul_nonneg ho hc0') hdpos.le
      · rw [div_le_iff₀ hdpos]
        exact mul_le_mul_of_nonneg_left hcd' ho
  · intro hd hcd
    rw [hformula (by omega), hcd]
    have hdne : (p._fadeDuration : ℚ) ≠ 0 := by exact_mod_cast (by omega : p._fadeDuration ≠ 0)
    field_simp
  · intro hc
    simp [Game_Picture.prevCellOpacity, hc]

/-! ## Sequential file names -/

/-- The digit printer never shortens its accumulator. -/
theorem toDigitsCore_length_ge (f : Nat) : ∀ (n : Nat) (ds : List Char),
    ds.length ≤ (Nat.toDigitsCore 10 f n ds).length := by
  induction f with
  | zero => intro n ds; simp [Nat.toDigitsCore]
  | succ f ih =>
    intro n ds
    simp only [Nat.toDigitsCore]
    split_ifs
    · simp
    · exact le_trans (by simp) (ih (n / 10) _)

/-- With enough fuel, a larger number does not print shorter. -/
theorem toDigitsCore_length_mono (f1 : Nat) : ∀ (f2 m n : Nat) (ds1 ds2 : List Char),
    m ≤ n → m < f1 → n < f2 → ds1.length ≤ ds2.length →
    (Nat.toDigitsCore 10 f1 m ds1).length ≤ (Nat.toDigitsCore 10 f2 n ds2).length := by
  induction f1 with
  | zero => intro f2 m n ds1 ds2 _ hm; omega
  | succ f1 ih =>
    intro f2 m n ds1 ds2 hmn hm hn hds
    cases f2 with
    | zero => omega
    | succ f2 =>
      simp only [Nat.toDigitsCore]
      by_cases hm0 : m / 10 = 0
      · by_cases hn0 : n / 10 = 0
        · simp [hm0, hn0, hds]
        · simp only [hm0, hn0, if_true, if_false]
          exact le_trans (by simpa using hds) (toDigitsCore_length_ge f2 (n / 10) _)
      · have hn0 : n / 10 ≠ 0 := by omega
        simp only [hm0, hn0, if_false]
        exact ih f2 (m / 10) (n / 10) _ _ (by omega) (by omega) (by omega) (by simpa using hds)

/-- A larger number does not print shorter. -/
theorem toDigits_length_mono (m n : Nat) (h : m ≤ n) :
    (Nat.toDigits 10 m).length ≤ (Nat.toDigits 10 n).length :=
  toDigitsCore_length_mono (m + 1) (n + 1) m n [] [] h (by omega) (by omega) le_rfl

/-- Padding a text that is not longer than `w` gives exactly `w` characters. -/
theorem padZero_length (s : List Char) (w : Nat) (h : s.length ≤ w) :
    (padZero s w).length = w := by
  simp only [padZero, List.length_append, List.length_replicate]
  omega

/-- C18 (counterexample): with ten cells and the picture name `pic0` the file
of cell 1 is `pi01`: two characters are replaced, the width of `10`, where the
width of `10 - 1 = 9` gives `pic1`. -/
theorem sequential_filename_uses_width_of_cellNumber :
    (Sprite_Picture.loadAnimationBitmap "pic0" 10).get? 1 = some (BitmapSource.picture "pi01") ∧
    specSequentialFilename "pic0" 10 1 = "pic1" ∧
    Sprite_Picture.animationFilename "pic0" 10 1 ≠ specSequentialFilename "pic0" 10 1 := by
  decide

/-- C18 (amended): for `n ≥ 2` cells and `1 ≤ i < n` the file loaded for cell
`i` is the picture name with its trailing `w` characters replaced by `i`
zero-padded to exactly `w` digits, `w` the number of decimal digits of the
cell count `n` itself; cell 0 is the original bitmap and `n` bitmaps are
held.  The name is the one of the specification whenever `n - 1` has as many
digits as `n`. -/
theorem sequential_filenames (pictureName : String) (n : Int) (i : Nat)
    (hn : 2 ≤ n) (hi1 : 1 ≤ i) (hin : (i : Int) < n) :
    (Sprite_Picture.loadAnimationBitmap pictureName n).get? i
      = some (BitmapSource.picture (String.mk
          (pictureName.data.take (pictureName.data.length - (numberToString n).length)
            ++ padZero (numberToString (i : Int)) (numberToString n).length))) ∧
    (padZero (numberToString (i : Int)) (numberToString n).length).length
      = (numberToString n).length ∧
    (Sprite_Picture.loadAnimationBitmap pictureName n).get? 0 = some BitmapSource.original ∧
    ((Sprite_Picture.loadAnimationBitmap pictureName n).length : Int) = n ∧
    ((numberToString (n - 1)).length = (numberToString n).length →
      Sprite_Picture.animationFilename pictureName n i
        = specSequentialFilename pictureName n i) := by
  refine ⟨?_, ?_, rfl, ?_, ?_⟩
  · obtain ⟨k, rfl⟩ : ∃ k, i = k + 1 := ⟨i - 1, by omega⟩
    have hk : k < n.toNat - 1 := by omega
    simp [Sprite_Picture.loadAnimationBitmap, Sprite_Picture.animationFilename, hk]
  · apply padZero_length
    have hi : numberToString (i : Int) = Nat.toDigits 10 i := by
      simp [numberToString]
    have hn' : numberToString n = Nat.toDigits 10 n.toNat := by
      have : ¬ n < 0 := by omega
      simp [numberToString, this]
    rw [hi, hn']
    exact toDigits_length_mono i n.toNat (by omega)
  · simp only [Sprite_Picture.loadAnimationBitmap, List.length_cons, List.length_map,
      List.length_range]
    omega
  · intro hw
    simp only [Sprite_Picture.animationFilename, specSequentialFilename, hw]

/-- Witness of C18 (amended): cell 3 of 12 for the picture name `walk00`. -/
theorem sequential_filenames_witness :
    (2 : Int) ≤ 12 ∧ 1 ≤ 3 ∧ ((3 : Nat) : Int) < 12 ∧
    (Sprite_Picture.loadAnimationBitmap "walk00" 12).get? 3
      = some (BitmapSource.picture (String.mk
          ("walk00".data.take ("walk00".data.length - (numberToString 12).length)
            ++ padZero (numberToString ((3 : Nat) : Int)) (numberToString 12).length))) :=
  ⟨by decide, by decide, by decide,
    (sequential_filenames "walk00" 12 3 (by decide) (by decide) (by decide)).1⟩

/-! ## Layout argument -/

/-- C19 (counterexample): `PA_INIT 4 10 X 0` stages the layout `X` as it is,
and `updateAnimation` with that layout leaves the frame of the sprite, here
the whole bitmap of 100 by 400, untouched, where the vertical layout sets the
band of cell 1. -/
theorem unrecognised_layout_sets_no_frame :
    (pluginCommandPictureAnimation_PA_INIT plainHost ["4", "10", "X", "0"]).direction = "X" ∧
    Sprite_Picture.updateAnimation "X" 4 [] (some ⟨100, 400⟩)
        ⟨some ⟨100, 400⟩, ⟨0, 0, 100, 400⟩⟩ 1
      = some ⟨some ⟨100, 400⟩, ⟨0, 0, 100, 400⟩⟩ ∧
    Sprite_Picture.updateAnimation "V" 4 [] (some ⟨100, 400⟩)
        ⟨some ⟨100, 400⟩, ⟨0, 0, 100, 400⟩⟩ 1
      = some ⟨some ⟨100, 400⟩, ⟨0, 100, 100, 100⟩⟩ ∧
    Sprite_Picture.updateAnimation "X" 4 [] (some ⟨100, 400⟩)
        ⟨some ⟨100, 400⟩, ⟨0, 0, 100, 400⟩⟩ 1
      ≠ Sprite_Picture.updateAnimation "V" 4 [] (some ⟨100, 400⟩)
        ⟨some ⟨100, 400⟩, ⟨0, 0, 100, 400⟩⟩ 1 := by
  refine ⟨by decide, ?_, ?_, ?_⟩
  · simp [Sprite_Picture.updateAnimation]
  · simp [Sprite_Picture.updateAnimation]
    norm_num
  · simp [Sprite_Picture.updateAnimation]
    norm_num

/-- C19 (amended): when the layout argument of `PA_INIT` is missing or empty
(`getArgString` returns the empty text) the staged layout is `縦`, and
`updateAnimation` then sets the frame exactly as for `V`, the vertical band
of the cell; a layout that is none of `連番`, `N`, `縦`, `V`, `横`, `H` makes
`updateAnimation` return the sprite unchanged. -/
theorem missing_layout_defaults_to_vertical (h : Host) (args : List String)
    (hempty : getArgString h (args.get? 2) true = "") (cellNumber : Int)
    (bitmaps : List Bitmap) (thisBitmap : Option Bitmap) (sprite : Sprite) (cellCount : Int) :
    (pluginCommandPictureAnimation_PA_INIT h args).direction = "縦" ∧
    Sprite_Picture.updateAnimation (pluginCommandPictureAnimation_PA_INIT h args).direction
        cellNumber bitmaps thisBitmap sprite cellCount
      = Sprite_Picture.updateAnimation "V" cellNumber bitmaps thisBitmap sprite cellCount ∧
    (∀ direction : String, direction ∉ ["連番", "N", "縦", "V", "横", "H"] →
      Sprite_Picture.updateAnimation direction cellNumber bitmaps thisBitmap sprite cellCount
        = some sprite) := by
  have hdir : (pluginCommandPictureAnimation_PA_INIT h args).direction = "縦" := by
    have hempty' : getArgString h args[2]? true = "" := by simpa using hempty
    simp [pluginCommandPictureAnimation_PA_INIT, hempty']
  refine ⟨hdir, ?_, ?_⟩
  · rw [hdir]
    simp [Sprite_Picture.updateAnimation]
  · intro direction hnot
    simp only [List.mem_cons, List.mem_singleton, List.not_mem_nil, or_false, not_or] at hnot
    obtain ⟨h1, h2, h3, h4, h5, h6⟩ := hnot
    simp [Sprite_Picture.updateAnimation, h1, h2, h3, h4, h5, h6]

/-- Witness of C19 (amended): `PA_INIT 4 10` without a layout argument. -/
theorem missing_layout_defaults_to_vertical_witness :
    getArgString plainHost (["4", "10"].get? 2) true = "" ∧
    (pluginCommandPictureAnimation_PA_INIT plainHost ["4", "10"]).direction = "縦" :=
  ⟨by decide,
    (missing_layout_defaults_to_vertical plainHost ["4", "10"] (by decide) 4 []
      (some ⟨100, 400⟩) ⟨some ⟨100, 400⟩, ⟨0, 0, 100, 400⟩⟩ 1).1⟩

/-! ## Staging of PA_INIT -/

/-- While the staged values are `(1, 1, '', 0)`, `showPicture` stores a new,
unanimated picture and leaves the staged values alone. -/
theorem Game_Screen.showPicture_unstaged (t : Game_Screen) (realPictureId : Nat)
    (ht : t._pa = some { cellNumber := 1, frameNumber := 1, direction := "", fadeDuration := 0 }) :
    (t.showPicture realPictureId)._pictures realPictureId = some Game_Picture.initAnimation ∧
    (t.showPicture realPictureId)._pa = t._pa := by
  simp [Game_Screen.showPicture, Game_Screen.hostShowPicture, ht]

/-- C21: after `setPicturesAnimation(c, f, dir, d)` with `c > 1` the next
`showPicture` stores a new picture initialised with
`setAnimationInit(c, f, dir, d)`, leaves the other pictures alone and resets
the staged values to `(1, 1, '', 0)`; every further `showPicture` then stores
a new picture with `cellNumber` 1 and direction `''` and keeps the staged
values. -/
theorem staged_init_is_one_shot (s : Game_Screen) (c f : Int) (dir : String) (d : Int)
    (id1 : Nat) (hc : 1 < c) :
    ((s.setPicturesAnimation c f dir d).showPicture id1)._pictures id1
      = some (Game_Picture.initAnimation.setAnimationInit c f dir d) ∧
    ((s.setPicturesAnimation c f dir d).showPicture id1)._pa
      = some { cellNumber := 1, frameNumber := 1, direction := "", fadeDuration := 0 } ∧
    (∀ k, k ≠ id1 →
      ((s.setPicturesAnimation c f dir d).showPicture id1)._pictures k = s._pictures k) ∧
    (∀ id2 : Nat,
      (((s.setPicturesAnimation c f dir d).showPicture id1).showPicture id2)._pictures id2
        = some Game_Picture.initAnimation ∧
      Game_Picture.initAnimation._cellNumber = 1 ∧ Game_Picture.initAnimation._direction = "" ∧
      (((s.setPicturesAnimation c f dir d).showPicture id1).showPicture id2)._pa
        = some { cellNumber := 1, frameNumber := 1, direction := "", fadeDuration := 0 }) := by
  have hpa : ((s.setPicturesAnimation c f dir d).showPicture id1)._pa
      = some { cellNumber := 1, frameNumber := 1, direction := "", fadeDuration := 0 } := by
    simp [Game_Screen.showPicture, Game_Screen.hostShowPicture,
      Game_Screen.setPicturesAnimation, Game_Screen.clearPicturesAnimation, hc]
  refine ⟨?_, hpa, ?_, ?_⟩
  · simp [Game_Screen.showPicture, Game_Screen.hostShowPicture,
      Game_Screen.setPicturesAnimation, Game_Screen.clearPicturesAnimation, hc]
  · intro k hk
    simp [Game_Screen.showPicture, Game_Screen.hostShowPicture,
      Game_Screen.setPicturesAnimation, Game_Screen.clearPicturesAnimation, hc, hk]
  · intro id2
    obtain ⟨h1, h2⟩ := Game_Screen.showPicture_unstaged _ id2 hpa
    exact ⟨h1, rfl, rfl, h2.trans hpa⟩

/-- Witness of C21: `PA_INIT 4 10 V 20` staged on a screen without pictures. -/
theorem staged_init_is_one_shot_witness :
    (1 : Int) < 4 ∧
    ((({ _pa := none, _pictures := fun _ => none } : Game_Screen).setPicturesAnimation 4 10 "V"
        20).showPicture 1)._pictures 1
      = some (Game_Picture.initAnimation.setAnimationInit 4 10 "V" 20) :=
  ⟨by decide,
    (staged_init_is_one_shot { _pa := none, _pictures := fun _ => none } 4 10 "V" 20 1
      (by decide)).1⟩

/-! ## Range of the resolved cell -/

/-- C25: for `n ≥ 1` cells and `v ≥ 0`, in every play mode (PingPong only
with `n ≥ 2`, Custom only with a non-empty pattern), assigning `v` to `cell`
and reading `cell` back gives an integer `c` with `0 ≤ c ≤ n - 1`. -/
theorem resolved_cell_in_range (p : Game_Picture) (n v : Int)
    (hcells : p._cellNumber = n) (hn : 1 ≤ n) (hv : 0 ≤ v)
    (hpingpong : p._animationType = 2 → 2 ≤ n)
    (hcustom : p._animationType = 3 → ∃ s, p._customArray = some s ∧ s ≠ []) :
    ∃ c : Int, (p.setCell (int v)).bind Game_Picture.cell = some (int c) ∧ 0 ≤ c ∧ c ≤ n - 1 := by
  by_cases h3 : p._animationType = 3
  · obtain ⟨s, harr, hs⟩ := hcustom h3
    have hlen : 0 < (s.length : Int) := by
      have := List.length_pos.mpr hs
      omega
    have hL : p.getCellNumber = some (s.length : Int) := by
      simp [Game_Picture.getCellNumber, h3, harr]
    obtain ⟨cv, hcv⟩ : ∃ cv, p.cell = some cv := by
      simp [Game_Picture.cell, h3, harr]
    have hm0 : 0 ≤ v % (s.length : Int) := Int.emod_nonneg _ (by omega)
    have hm1 : v % (s.length : Int) < s.length := Int.emod_lt_of_pos _ hlen
    obtain ⟨x, hx⟩ : ∃ x, s.get? (v % (s.length : Int)).toNat = some x :=
      ⟨_, List.get?_eq_get (by omega)⟩
    refine ⟨Min.min (Max.max (x - 1) 0) (n - 1), ?_, ?_, ?_⟩
    · rw [Game_Picture.setCell_eq p (int v) _ _ hL hcv,
        mod_int_of_nonneg v (s.length : Int) hv hlen]
      split_ifs
      · simp only [Option.some_bind]
        refine (custom_cell_of_index _ s (v % (s.length : Int)) x ?_ ?_ ?_ hm0 hx).trans ?_
        · exact h3
        · exact harr
        · rfl
        · simp [hcells]
      · simp only [Option.some_bind]
        refine (custom_cell_of_index _ s (v % (s.length : Int)) x ?_ ?_ ?_ hm0 hx).trans ?_
        · exact h3
        · exact harr
        · rfl
        · simp [hcells]
    · exact le_min (le_max_right _ _) (by omega)
    · exact min_le_right _ _
  · by_cases h2 : p._animationType = 2
    · have hn2 := hpingpong h2
      have hL : p.getCellNumber = some ((n - 1) * 2) := by
        simp [Game_Picture.getCellNumber, h2, hcells]
      obtain ⟨cv, hcv⟩ : ∃ cv, p.cell = some cv := by
        simp [Game_Picture.cell, h2]
      have hm0 : 0 ≤ v % ((n - 1) * 2) := Int.emod_nonneg _ (by omega)
      have hm1 : v % ((n - 1) * 2) < (n - 1) * 2 := Int.emod_lt_of_pos _ (by omega)
      refine ⟨n - 1 - |v % ((n - 1) * 2) - (n - 1)|, ?_, ?_, ?_⟩
      · rw [Game_Picture.setCell_eq p (int v) _ _ hL hcv,
          mod_int_of_nonneg v ((n - 1) * 2) hv (by omega)]
        split_ifs <;> simp [Game_Picture.cell, h2, hcells]
      · have habs : |v % ((n - 1) * 2) - (n - 1)| ≤ n - 1 := by
          rw [abs_le]
          constructor <;> omega
        omega
      · have := abs_nonneg (v % ((n - 1) * 2) - (n - 1))
        omega
    · have hL : p.getCellNumber = some n := by
        simp [Game_Picture.getCellNumber, h3, h2, hcells]
      have hcv : p.cell = some p._cellCount := by
        simp [Game_Picture.cell, h3, h2]
      refine ⟨v % n, ?_, Int.emod_nonneg _ (by omega), ?_⟩
      · rw [Game_Picture.setCell_eq p (int v) _ _ hL hcv, mod_int_of_nonneg v n hv (by omega)]
        split_ifs <;> simp [Game_Picture.cell, h3, h2]
      · have := Int.emod_lt_of_pos v (by omega : 0 < n)
        omega

/-- Witness of C25: value 5 on a started PingPong picture with four cells. -/
theorem resolved_cell_in_range_witness :
    (1 : Int) ≤ 4 ∧ (0 : Int) ≤ 5 ∧
    ∃ c : Int, (((Game_Picture.initAnimation.setAnimationInit 4 10 "V" 0).startAnimation 2 true
        none).setCell (int 5)).bind Game_Picture.cell = some (int c) ∧ 0 ≤ c ∧ c ≤ 4 - 1 :=
  ⟨by decide, by decide,
    resolved_cell_in_range
      ((Game_Picture.initAnimation.setAnimationInit 4 10 "V" 0).startAnimation 2 true none)
      4 5 rfl (by decide) (by decide) (fun _ => by decide) (fun h => absurd h (by decide))⟩

end PictureAnimation

/-! # AccumulateState.js: theorems -/

namespace AccumulateState

open JsReal (fin posInf negInf nan)

/-! ## Arithmetic of numbers -/

namespace JsReal

@[simp] theorem mul_fin_fin (a b : ℚ) : mul (fin a) (fin b) = fin (a * b) := rfl

@[simp] theorem mul_nan_left (x : JsReal) : mul nan x = nan := by cases x <;> rfl

@[simp] theorem mul_nan_right (x : JsReal) : mul x nan = nan := by cases x <;> rfl

@[simp] theorem add_fin_fin (a b : ℚ) : add (fin a) (fin b) = fin (a + b) := rfl

@[simp] theorem add_nan_right (x : JsReal) : add x nan = nan := by cases x <;> rfl

@[simp] theorem add_nan_left (x : JsReal) : add nan x = nan := by cases x <;> rfl

@[simp] theorem le_fin_fin (a b : ℚ) : le (fin a) (fin b) = decide (a ≤ b) := rfl

@[simp] theorem ge_fin_fin (a b : ℚ) : ge (fin a) (fin b) = decide (b ≤ a) := rfl

@[simp] theorem ge_nan_left (x : JsReal) : ge nan x = false := by cases x <;> rfl

/-- Adding 0 keeps a number. -/
theorem add_fin_zero (x : JsReal) : add x (fin 0) = x := by
  cases x <;> simp [add]

/-- The value of `x || 0` is never `NaN`. -/
theorem orZero_ne_nan (x : Option JsReal) : orZero x ≠ nan := by
  rcases x with _ | x
  · simp [orZero]
  · cases x <;> simp [orZero]

/-- Reading `x || 0` of a stored `x || 0` gives the same number. -/
theorem orZero_orZero (x : Option JsReal) : orZero (some (orZero x)) = orZero x := by
  rcases x with _ | x
  · rfl
  · cases x <;> rfl

/-- A finite number is stored and read back as it is. -/
@[simp] theorem orZero_fin (t : ℚ) : orZero (some (fin t)) = fin t := rfl

end JsReal

/-- The clamp of a finite number to `[0, 1]`. -/
theorem clamp_fin (x : ℚ) :
    clamp (fin x) (fin 0) (fin 1) = fin (Min.min (Max.max x 0) 1) := by
  unfold clamp JsReal.max JsReal.min
  by_cases h0 : x ≤ 0
  · have h1 : (0 : ℚ) ≤ 1 := by norm_num
    simp [JsReal.isNaN, h0, h1]
  · have h0' : 0 ≤ x := le_of_lt (not_le.mp h0)
    by_cases h1 : x ≤ 1
    · simp [JsReal.isNaN, h0, h1, h0']
    · have h1' : 1 ≤ x := le_of_lt (not_le.mp h1)
      simp [JsReal.isNaN, h0, h1, h0', h1']

/-- The clamp of `NaN` is `NaN`: `Math.max` and `Math.min` keep it. -/
theorem clamp_nan (lo hi : JsReal) : clamp nan lo hi = nan := by
  simp [clamp, JsReal.max, JsReal.min, JsReal.isNaN]

/-- The clamp of `Infinity` to `[0, 1]` is 1. -/
theorem clamp_posInf : clamp posInf (fin 0) (fin 1) = fin 1 := by
  simp [clamp, JsReal.max, JsReal.min, JsReal.isNaN, JsReal.le]

/-- The clamp of `-Infinity` to `[0, 1]` is 0. -/
theorem clamp_negInf : clamp negInf (fin 0) (fin 1) = fin 0 := by
  simp [clamp, JsReal.max, JsReal.min, JsReal.isNaN, JsReal.le]

/-- A rational clamped to `[0, 1]` lies in `[0, 1]`. -/
theorem clamp_unit (x : ℚ) : 0 ≤ Min.min (Max.max x 0) 1 ∧ Min.min (Max.max x 0) 1 ≤ 1 :=
  ⟨le_min (le_max_right _ _) (by norm_num), min_le_right _ _⟩

/-- The clamp of a finite value that is not positive is 0. -/
theorem clamp_unit_of_nonpos (x : ℚ) (hx : x ≤ 0) : clamp (fin x) (fin 0) (fin 1) = fin 0 := by
  rw [clamp_fin, max_eq_right hx]
  exact congrArg fin (min_eq_left (by norm_num))

/-- The clamp to `[0, 1]` is `NaN` or a finite number in `[0, 1]`. -/
theorem clamp_unit_or_nan (x : JsReal) :
    (x = nan ∧ clamp x (fin 0) (fin 1) = nan) ∨
    (∃ q : ℚ, clamp x (fin 0) (fin 1) = fin q ∧ 0 ≤ q ∧ q ≤ 1) := by
  cases x with
  | fin q => exact Or.inr ⟨_, clamp_fin q, clamp_unit q⟩
  | posInf => exact Or.inr ⟨1, clamp_posInf, by norm_num, le_refl _⟩
  | negInf => exact Or.inr ⟨0, clamp_negInf, le_refl _, by norm_num⟩
  | nan => exact Or.inl ⟨rfl, clamp_nan _ _⟩

/-! ## The accumulation rate -/

/-- What holds of the accumulation rate for every formula: the value returned
is `NaN`, exactly when the product with the immunity factor is, or a finite
number in `[0, 1]`. -/
theorem applyResistance_unit_or_nan (param : Param) (h : BattleHost)
    (action : Game_Action) (effectValue : ℚ) (target : Game_Battler) (stateId : Nat) :
    (JsReal.mul (rateBeforeImmunity param h action effectValue target stateId)
        (fin (1 - getStateImmunity param target stateId)) = nan ∧
      applyResistanceForAccumulateState param h action effectValue target stateId = nan) ∨
    (∃ q : ℚ,
      applyResistanceForAccumulateState param h action effectValue target stateId = fin q ∧
      0 ≤ q ∧ q ≤ 1) :=
  clamp_unit_or_nan _

/-- When the rate before the immunity factor is finite (the formula is absent,
throws or returns a finite number), the accumulation rate is the clamped
product with the immunity factor, a finite number in `[0, 1]`. -/
theorem applyResistance_of_finite_rate (param : Param) (h : BattleHost)
    (action : Game_Action) (effectValue : ℚ) (target : Game_Battler) (stateId : Nat) (r : ℚ)
    (hr : rateBeforeImmunity param h action effectValue target stateId = fin r) :
    applyResistanceForAccumulateState param h action effectValue target stateId
      = fin (Min.min (Max.max (r * (1 - getStateImmunity param target stateId)) 0) 1) ∧
    0 ≤ Min.min (Max.max (r * (1 - getStateImmunity param target stateId)) 0) 1 ∧
    Min.min (Max.max (r * (1 - getStateImmunity param target stateId)) 0) 1 ≤ 1 := by
  refine ⟨?_, clamp_unit _⟩
  unfold applyResistanceForAccumulateState
  rw [hr, JsReal.mul_fin_fin, clamp_fin]

/-- Without a formula, or with a formula that throws or returns a finite
number, the rate before the immunity factor is finite. -/
theorem rateBeforeImmunity_finite (param : Param) (h : BattleHost) (action : Game_Action)
    (effectValue : ℚ) (target : Game_Battler) (stateId : Nat)
    (hformula : ∀ formula, param.AccumulateFormula = some formula →
      formula effectValue (h.stateRate target stateId) = none ∨
      ∃ q : ℚ, formula effectValue (h.stateRate target stateId) = some (fin q)) :
    ∃ r : ℚ, rateBeforeImmunity param h action effectValue target stateId = fin r := by
  unfold rateBeforeImmunity
  cases hf : param.AccumulateFormula with
  | none =>
    by_cases hl : param.LuckAdjust <;> simp [hl]
  | some formula =>
    rcases hformula formula hf with hnone | ⟨q, hq⟩
    · by_cases hl : param.LuckAdjust <;> simp [hl, hnone]
    · by_cases hl : param.LuckAdjust <;> simp [hl, hq]

/-- Without a formula, with the luck adjustment off and immunity 0 the
accumulation rate is the clamped product `effectValue * stateRate`; 0.8 and
0.5 give 0.4. -/
theorem applyResistance_default (param : Param) (h : BattleHost) (action : Game_Action)
    (effectValue : ℚ) (target : Game_Battler) (stateId : Nat)
    (hformula : param.AccumulateFormula = none) (hluck : param.LuckAdjust = false)
    (himm : getStateImmunity param target stateId = 0) :
    applyResistanceForAccumulateState param h action effectValue target stateId
      = clamp (fin (effectValue * h.stateRate target stateId)) (fin 0) (fin 1) ∧
    (effectValue = 4 / 5 → h.stateRate target stateId = 1 / 2 →
      applyResistanceForAccumulateState param h action effectValue target stateId
        = fin (2 / 5)) := by
  have heq : applyResistanceForAccumulateState param h action effectValue target stateId
      = clamp (fin (effectValue * h.stateRate target stateId)) (fin 0) (fin 1) := by
    simp [applyResistanceForAccumulateState, rateBeforeImmunity, hformula, hluck, himm]
  refine ⟨heq, ?_⟩
  intro he hr
  rw [heq, he, hr, clamp_fin]
  norm_num

/-- C22: the formula `a / b` on a target whose state rate is 0.  With the
effect value 0 the formula result `0 / 0` is `NaN`; with the effect value 0.5
and an immunity of 1.0 the formula result `Infinity` times the immunity factor
0 is `NaN`.  In both cases `applyResistanceForAccumulateState` returns `NaN`,
which is neither `>= 0` nor `<= 1`, and the add-state effect stores it as the
accumulation: the 0.9 that `chargedBattler` had accumulated reads as 0
afterwards. -/
theorem accumulation_rate_nan_from_formula :
    applyResistanceForAccumulateState quotientParam barredHost normalAction 0 freshBattler 5
      = nan ∧
    applyResistanceForAccumulateState quotientParam barredHost normalAction (1 / 2)
      immuneBattler 5 = nan ∧
    JsReal.ge nan (fin 0) = false ∧ JsReal.le nan (fin 1) = false ∧
    getStateAccumulation chargedBattler 5 = fin (9 / 10) ∧
    (itemEffectAddNormalState quotientParam barredHost normalAction chargedBattler 5
      0).1._stateAccumulations 5 = some nan ∧
    getStateAccumulation
      (itemEffectAddNormalState quotientParam barredHost normalAction chargedBattler 5 0).1 5
      = fin 0 := by
  have h1 : applyResistanceForAccumulateState quotientParam barredHost normalAction 0
      freshBattler 5 = nan := by
    simp [applyResistanceForAccumulateState, rateBeforeImmunity, quotientParam, sampleParam,
      barredHost, JsReal.divFin, clamp_nan]
  have h2 : applyResistanceForAccumulateState quotientParam barredHost normalAction (1 / 2)
      immuneBattler 5 = nan := by
    norm_num [applyResistanceForAccumulateState, rateBeforeImmunity, quotientParam, sampleParam,
      barredHost, normalAction, immuneBattler, getStateImmunity, JsReal.divFin, JsReal.mul,
      clamp_nan]
  have h3 : applyResistanceForAccumulateState quotientParam barredHost normalAction 0
      chargedBattler 5 = nan := by
    simp [applyResistanceForAccumulateState, rateBeforeImmunity, quotientParam, sampleParam,
      barredHost, JsReal.divFin, clamp_nan]
  have hacc : isStateAccumulate barredHost 5 = true := by
    simp [isStateAccumulate, barredHost, sampleHost]
  have hcond : (!normalAction.isCertainHit || !quotientParam.CertainHit) = true := by
    simp [normalAction]
  have hitem : itemEffectAddNormalState quotientParam barredHost normalAction chargedBattler 5 0
      = accumulateState barredHost chargedBattler 5 nan := by
    simp only [itemEffectAddNormalState, hacc, if_true, hcond, h3]
  have hstore : (itemEffectAddNormalState quotientParam barredHost normalAction chargedBattler 5
      0).1._stateAccumulations 5 = some nan := by
    rw [hitem]
    simp [accumulateState, hacc, isStateAffected, setAccumulation, chargedBattler]
  refine ⟨h1, h2, rfl, rfl, rfl, hstore, ?_⟩
  simp [getStateAccumulation, hstore, JsReal.orZero]

/-- C23: `accumulateState` on an accumulate-type state stores the previous
accumulation plus the value.  When the battler is not affected and the total
is at least 1.0 (in particular when it exceeds 1.0) `addState` is called, the
immunity count of the state becomes one more than it is after `addState`
(one more than before, as the host `addState` does not write the count), and
`true` is returned.  When the total is below 1.0 or the battler is already
affected, only the accumulation is stored, and when the state is not
accumulate-type nothing is: the states and the immunity counts are unchanged
and `false` is returned.  The comparison is that of JavaScript numbers; for a
finite previous accumulation `prev` and a finite value `v` the total is
`prev + v` and the two cases are `1 ≤ prev + v` and `prev + v < 1`. -/
theorem accumulateState_threshold (h : BattleHost) (b : Game_Battler) (stateId : Nat)
    (value : JsReal) :
    (isStateAccumulate h stateId = true → isStateAffected b stateId = false →
      JsReal.ge (JsReal.add (getStateAccumulation b stateId) value) (fin 1) = true →
      accumulateState h b stateId value
        = (countActivation (h.addState
            (setAccumulation b stateId (JsReal.add (getStateAccumulation b stateId) value))
            stateId) stateId, true) ∧
      (accumulateState h b stateId value).1._stateImmunity stateId
        = some (((h.addState
            (setAccumulation b stateId (JsReal.add (getStateAccumulation b stateId) value))
            stateId)._stateImmunity stateId).getD 0 + 1) ∧
      ((h.addState
          (setAccumulation b stateId (JsReal.add (getStateAccumulation b stateId) value))
          stateId)._stateImmunity stateId = b._stateImmunity stateId →
        (accumulateState h b stateId value).1._stateImmunity stateId
          = some ((b._stateImmunity stateId).getD 0 + 1))) ∧
    (isStateAccumulate h stateId = true →
      (JsReal.ge (JsReal.add (getStateAccumulation b stateId) value) (fin 1) = false ∨
        isStateAffected b stateId = true) →
      accumulateState h b stateId value
        = (setAccumulation b stateId (JsReal.add (getStateAccumulation b stateId) value),
           false)) ∧
    (isStateAccumulate h stateId = false → accumulateState h b stateId value = (b, false)) ∧
    (∀ total : JsReal, (setAccumulation b stateId total)._states = b._states ∧
      (setAccumulation b stateId total)._stateImmunity = b._stateImmunity ∧
      (setAccumulation b stateId total)._stateAccumulations stateId = some total ∧
      (∀ t : ℚ, total = fin t →
        getStateAccumulation (setAccumulation b stateId total) stateId = fin t)) ∧
    (∀ prev v : ℚ, getStateAccumulation b stateId = fin prev → value = fin v →
      (isStateAccumulate h stateId = true → isStateAffected b stateId = false →
        1 ≤ prev + v →
        accumulateState h b stateId value
          = (countActivation (h.addState (setAccumulation b stateId (fin (prev + v))) stateId)
              stateId, true)) ∧
      (isStateAccumulate h stateId = true →
        (prev + v < 1 ∨ isStateAffected b stateId = true) →
        accumulateState h b stateId value
          = (setAccumulation b stateId (fin (prev + v)), false))) := by
  have hactivate : isStateAccumulate h stateId = true → isStateAffected b stateId = false →
      JsReal.ge (JsReal.add (getStateAccumulation b stateId) value) (fin 1) = true →
      accumulateState h b stateId value
        = (countActivation (h.addState
            (setAccumulation b stateId (JsReal.add (getStateAccumulation b stateId) value))
            stateId) stateId, true) := by
    intro hacc haff htotal
    have haff' : isStateAffected
        (setAccumulation b stateId (JsReal.add (getStateAccumulation b stateId) value))
        stateId = false := haff
    simp only [accumulateState, hacc, if_true]
    simp only [getStateAccumulation] at htotal haff'
    simp [haff', htotal, getStateAccumulation]
  have hstore : isStateAccumulate h stateId = true →
      (JsReal.ge (JsReal.add (getStateAccumulation b stateId) value) (fin 1) = false ∨
        isStateAffected b stateId = true) →
      accumulateState h b stateId value
        = (setAccumulation b stateId (JsReal.add (getStateAccumulation b stateId) value),
           false) := by
    intro hacc hcase
    simp only [accumulateState, hacc, if_true]
    rcases hcase with hlt | haff
    · simp only [getStateAccumulation] at hlt
      simp [hlt, getStateAccumulation]
    · have haff' : isStateAffected
          (setAccumulation b stateId
            (JsReal.add (JsReal.orZero (b._stateAccumulations stateId)) value)) stateId
          = true := haff
      simp [haff', getStateAccumulation]
  refine ⟨?_, hstore, ?_, ?_, ?_⟩
  · intro hacc haff htotal
    have hstep := hactivate hacc haff htotal
    have hcount : (accumulateState h b stateId value).1._stateImmunity stateId
        = some (((h.addState
            (setAccumulation b stateId (JsReal.add (getStateAccumulation b stateId) value))
            stateId)._stateImmunity stateId).getD 0 + 1) := by
      rw [hstep]
      simp [countActivation]
    refine ⟨hstep, hcount, ?_⟩
    intro hkeep
    rw [hcount, hkeep]
  · intro hacc
    simp [accumulateState, hacc]
  · intro total
    refine ⟨rfl, rfl, by simp [setAccumulation], ?_⟩
    intro t ht
    subst ht
    simp [getStateAccumulation, setAccumulation]
  · intro prev v hprev hv
    subst hv
    refine ⟨?_, ?_⟩
    · intro hacc haff htotal
      have hge : JsReal.ge (JsReal.add (getStateAccumulation b stateId) (fin v)) (fin 1)
          = true := by
        rw [hprev]
        simpa using htotal
      have hstep := hactivate hacc haff hge
      rw [hprev, JsReal.add_fin_fin] at hstep
      exact hstep
    · intro hacc hcase
      have hcase' : JsReal.ge (JsReal.add (getStateAccumulation b stateId) (fin v)) (fin 1)
          = false ∨ isStateAffected b stateId = true := by
        rcases hcase with hlt | haff
        · left
          rw [hprev]
          simpa using hlt
        · exact Or.inr haff
      have hstep := hstore hacc hcase'
      rw [hprev, JsReal.add_fin_fin] at hstep
      exact hstep

/-- The accumulation of a fresh battler that receives 0.6 twice for the
accumulate-type state 5: stored the first time, activated the second time. -/
theorem accumulateState_example :
    (accumulateState sampleHost freshBattler 5 (fin (3 / 5))).2 = false ∧
    getStateAccumulation (accumulateState sampleHost freshBattler 5 (fin (3 / 5))).1 5
      = fin (3 / 5) ∧
    (accumulateState sampleHost
      (accumulateState sampleHost freshBattler 5 (fin (3 / 5))).1 5 (fin (3 / 5))).2 = true ∧
    (accumulateState sampleHost
      (accumulateState sampleHost freshBattler 5 (fin (3 / 5))).1 5
      (fin (3 / 5))).1._stateImmunity 5 = some 1 := by
  refine ⟨?_, ?_, ?_, ?_⟩ <;>
    norm_num [accumulateState, isStateAccumulate, isStateAffected, sampleHost, setAccumulation,
      countActivation, getStateAccumulation, freshBattler, JsReal.orZero]

/-! ## Immunity -/

/-- With the default formula and non-negative inputs the rate before the
immunity factor is finite and not negative. -/
theorem rateBeforeImmunity_nonneg (param : Param) (h : BattleHost) (action : Game_Action)
    (effectValue : ℚ) (target : Game_Battler) (stateId : Nat)
    (hformula : param.AccumulateFormula = none) (he : 0 ≤ effectValue)
    (hr : 0 ≤ h.stateRate target stateId) (hl : 0 ≤ action.lukEffectRate target) :
    ∃ r : ℚ, rateBeforeImmunity param h action effectValue target stateId = fin r ∧ 0 ≤ r := by
  simp only [rateBeforeImmunity, hformula]
  split_ifs
  · exact ⟨_, rfl, mul_nonneg (mul_nonneg he hr) hl⟩
  · exact ⟨_, rfl, mul_nonneg he hr⟩

/-- With an immunity of 1.0 or more, a finite rate that is not negative before
the immunity factor is resisted down to 0. -/
theorem applyResistance_of_full_immunity (param : Param) (h : BattleHost)
    (action : Game_Action) (effectValue : ℚ) (target : Game_Battler) (stateId : Nat) (r : ℚ)
    (himm : 1 ≤ getStateImmunity param target stateId)
    (hrate : rateBeforeImmunity param h action effectValue target stateId = fin r)
    (hr : 0 ≤ r) :
    applyResistanceForAccumulateState param h action effectValue target stateId = fin 0 := by
  unfold applyResistanceForAccumulateState
  rw [hrate, JsReal.mul_fin_fin]
  apply clamp_unit_of_nonpos
  exact mul_nonpos_of_nonneg_of_nonpos hr (by linarith)

/-- Accumulating 0 keeps the stored accumulation and, below 1.0 or on an
affected battler, changes nothing else. -/
theorem accumulateState_zero (h : BattleHost) (b : Game_Battler) (stateId : Nat)
    (hacc : isStateAccumulate h stateId = true)
    (hcase : JsReal.ge (getStateAccumulation b stateId) (fin 1) = false ∨
      isStateAffected b stateId = true) :
    accumulateState h b stateId (fin 0)
      = (setAccumulation b stateId (getStateAccumulation b stateId), false) := by
  simp only [accumulateState, hacc, if_true, JsReal.add_fin_zero]
  rcases hcase with hlt | haff
  · simp only [getStateAccumulation] at hlt
    simp [hlt, getStateAccumulation]
  · have haff' : isStateAffected
        (setAccumulation b stateId (JsReal.orZero (b._stateAccumulations stateId))) stateId
        = true := haff
    simp [haff', getStateAccumulation]

/-- C24 (counterexample): state 5 is accumulate-type and the battler's
immunity to it is 1.0 (one activation at an immunity rate of 100).  With the
parameter `CertainHit` on, a certain-hit action with the effect "add state 5,
50%" raises the accumulation from 0 to 0.5, and a second application
activates the state. -/
theorem certain_hit_ignores_full_immunity :
    isStateAccumulate sampleHost 5 = true ∧ getStateImmunity sampleParam immuneBattler 5 = 1 ∧
    getStateAccumulation immuneBattler 5 = fin 0 ∧
    getStateAccumulation
      (itemEffectAddNormalState sampleParam sampleHost certainHitAction immuneBattler 5
        (1 / 2)).1 5 = fin (1 / 2) ∧
    (itemEffectAddNormalState sampleParam sampleHost certainHitAction
      (itemEffectAddNormalState sampleParam sampleHost certainHitAction immuneBattler 5
        (1 / 2)).1 5 (1 / 2)).2 = true ∧
    isStateAffected
      (itemEffectAddNormalState sampleParam sampleHost certainHitAction
        (itemEffectAddNormalState sampleParam sampleHost certainHitAction immuneBattler 5
          (1 / 2)).1 5 (1 / 2)).1 5 = true := by
  refine ⟨?_, ?_, ?_, ?_, ?_, ?_⟩ <;>
    norm_num [itemEffectAddNormalState, accumulateState, isStateAccumulate, isStateAffected,
      sampleHost, sampleParam, certainHitAction, immuneBattler, setAccumulation,
      countActivation, getStateAccumulation, getStateImmunity, JsReal.orZero]

/-- C24 (amended): for an accumulate-type state whose immunity is 1.0 or more,
an add-state effect that goes through the resistance computation (the action
is not a certain hit or the parameter `CertainHit` is off; attack states
always do) with a rate that is a finite number and not negative before the
immunity factor accumulates exactly 0: `applyResistanceForAccumulateState`
returns 0, the effect is `accumulateState(stateId, 0)`, and while the stored
accumulation is below 1.0 or the battler is affected the accumulation keeps
its value, the states and immunity counts are untouched and no success is
made. -/
theorem full_immunity_blocks_resisted_effects (param : Param) (h : BattleHost)
    (action : Game_Action) (target : Game_Battler) (stateId : Nat) (value1 : ℚ)
    (rate attackRate : ℚ)
    (hacc : isStateAccumulate h stateId = true)
    (himm : 1 ≤ getStateImmunity param target stateId)
    (hresisted : action.isCertainHit = false ∨ param.CertainHit = false)
    (hrate : rateBeforeImmunity param h action value1 target stateId = fin rate)
    (hrate0 : 0 ≤ rate)
    (hattack : rateBeforeImmunity param h action
      (value1 * action.subjectAttackStatesRate stateId) target stateId = fin attackRate)
    (hattack0 : 0 ≤ attackRate) :
    applyResistanceForAccumulateState param h action value1 target stateId = fin 0 ∧
    itemEffectAddNormalState param h action target stateId value1
      = accumulateState h target stateId (fin 0) ∧
    (∀ success : Bool,
      accumulateAttackState param h action value1 (target, success) stateId
        = ((accumulateState h target stateId (fin 0)).1,
           success || (accumulateState h target stateId (fin 0)).2)) ∧
    (JsReal.ge (getStateAccumulation target stateId) (fin 1) = false ∨
        isStateAffected target stateId = true →
      accumulateState h target stateId (fin 0)
        = (setAccumulation target stateId (getStateAccumulation target stateId), false) ∧
      getStateAccumulation (accumulateState h target stateId (fin 0)).1 stateId
        = getStateAccumulation target stateId ∧
      (accumulateState h target stateId (fin 0)).1._states = target._states ∧
      (accumulateState h target stateId (fin 0)).1._stateImmunity = target._stateImmunity) ∧
    (∀ prev : ℚ, getStateAccumulation target stateId = fin prev →
      (prev < 1 ∨ isStateAffected target stateId = true) →
      accumulateState h target stateId (fin 0)
        = (setAccumulation target stateId (fin prev), false) ∧
      getStateAccumulation (accumulateState h target stateId (fin 0)).1 stateId = fin prev) := by
  have hzero := applyResistance_of_full_immunity param h action value1 target stateId rate
    himm hrate hrate0
  have hzero' := applyResistance_of_full_immunity param h action
    (value1 * action.subjectAttackStatesRate stateId) target stateId attackRate himm hattack
    hattack0
  have hkeep : JsReal.ge (getStateAccumulation target stateId) (fin 1) = false ∨
        isStateAffected target stateId = true →
      accumulateState h target stateId (fin 0)
        = (setAccumulation target stateId (getStateAccumulation target stateId), false) ∧
      getStateAccumulation (accumulateState h target stateId (fin 0)).1 stateId
        = getStateAccumulation target stateId ∧
      (accumulateState h target stateId (fin 0)).1._states = target._states ∧
      (accumulateState h target stateId (fin 0)).1._stateImmunity = target._stateImmunity := by
    intro hcase
    have hstep := accumulateState_zero h target stateId hacc hcase
    refine ⟨hstep, ?_, ?_, ?_⟩
    · rw [hstep]
      simp [getStateAccumulation, setAccumulation, JsReal.orZero_orZero]
    · rw [hstep]
      rfl
    · rw [hstep]
      rfl
  refine ⟨hzero, ?_, ?_, hkeep, ?_⟩
  · have hcond : (!action.isCertainHit || !param.CertainHit) = true := by
      rcases hresisted with hc | hc <;> simp [hc]
    simp only [itemEffectAddNormalState, hacc, if_true, hcond, hzero]
  · intro success
    simp only [accumulateAttackState, hzero']
  · intro prev hprev hcase
    have hcase' : JsReal.ge (getStateAccumulation target stateId) (fin 1) = false ∨
        isStateAffected target stateId = true := by
      rcases hcase with hlt | haff
      · left
        rw [hprev]
        simpa using hlt
      · exact Or.inr haff
    obtain ⟨h1, h2, -, -⟩ := hkeep hcase'
    rw [hprev] at h1 h2
    exact ⟨h1, h2⟩

/-- Witness of C24 (amended): the action `normalAction` on `immuneBattler`. -/
theorem full_immunity_blocks_resisted_effects_witness :
    isStateAccumulate sampleHost 5 = true ∧
    1 ≤ getStateImmunity sampleParam immuneBattler 5 ∧
    (normalAction.isCertainHit = false ∨ sampleParam.CertainHit = false) ∧
    rateBeforeImmunity sampleParam sampleHost normalAction (1 / 2) immuneBattler 5
      = fin (1 / 2) ∧
    applyResistanceForAccumulateState sampleParam sampleHost normalAction (1 / 2)
      immuneBattler 5 = fin 0 := by
  have hacc : isStateAccumulate sampleHost 5 = true := by
    simp [isStateAccumulate, sampleHost]
  have himm : 1 ≤ getStateImmunity sampleParam immuneBattler 5 := by
    norm_num [getStateImmunity, sampleParam, immuneBattler]
  have hrate : rateBeforeImmunity sampleParam sampleHost normalAction (1 / 2)
      immuneBattler 5 = fin (1 / 2) := by
    norm_num [rateBeforeImmunity, sampleParam, sampleHost, normalAction]
  have hattack : rateBeforeImmunity sampleParam sampleHost normalAction
      (1 / 2 * normalAction.subjectAttackStatesRate 5) immuneBattler 5 = fin (1 / 2) := by
    norm_num [rateBeforeImmunity, sampleParam, sampleHost, normalAction]
  exact ⟨hacc, himm, Or.inl rfl, hrate,
    (full_immunity_blocks_resisted_effects sampleParam sampleHost normalAction immuneBattler 5
      (1 / 2) (1 / 2) (1 / 2) hacc himm (Or.inl rfl) hrate (by norm_num) hattack
      (by norm_num)).1⟩

end AccumulateState

/-! # StateRingIcon.js: theorems -/

namespace StateRingIcon

namespace Sprite_StateIcon

theorem makeNewIcon_length (s : Sprite_StateIcon) (index : Nat)
    (h : s._iconsSprites.length ≤ index) :
    (s.makeNewIcon index)._iconsSprites.length = s._iconsSprites.length + 1 := by
  have hnot : ¬ index < s._iconsSprites.length := by omega
  simp [makeNewIcon, hnot]

theorem setIconIndex_length (s : Sprite_StateIcon) (index : Nat) (icon : Int) :
    (s.setIconIndex index icon)._iconsSprites.length = s._iconsSprites.length := by
  unfold setIconIndex
  split <;> simp

/-- The `forEach` creates the missing sprites and no others. -/
theorem setupIcons_length (icons : List Int) : ∀ (index : Nat) (s : Sprite_StateIcon),
    index ≤ s._iconsSprites.length →
    (setupIcons icons index s)._iconsSprites.length
      = Max.max s._iconsSprites.length (index + icons.length) := by
  induction icons with
  | nil =>
    intro index s h
    simp [setupIcons, h]
  | cons icon icons ih =>
    intro index s h
    simp only [setupIcons, List.length_cons]
    by_cases hlt : index < s._iconsSprites.length
    · have hsome : (s._iconsSprites.get? index).isNone = false := by
        rw [List.get?_eq_get hlt]
        rfl
      simp only [hsome, Bool.false_eq_true, if_false]
      rw [ih (index + 1) _ (by rw [setIconIndex_length]; omega), setIconIndex_length]
      omega
    · have hnone : (s._iconsSprites.get? index).isNone = true := by
        rw [List.get?_eq_none.mpr (by omega : s._iconsSprites.length ≤ index)]
        rfl
      simp only [hnone, if_true]
      rw [ih (index + 1) _
          (by rw [setIconIndex_length, makeNewIcon_length s index (by omega)]; omega),
        setIconIndex_length, makeNewIcon_length s index (by omega)]
      omega

theorem removeIcon_length (s : Sprite_StateIcon) (index : Nat)
    (h : index < s._iconsSprites.length) :
    (s.removeIcon index)._iconsSprites.length = s._iconsSprites.length - 1 := by
  simp [removeIcon, List.get?_eq_get h, List.length_eraseIdx, h]

/-- The loop removes every second surplus sprite only: it stops as soon as
the counter, which goes up, meets the length, which goes down. -/
theorem removeSurplus_length (fuel : Nat) : ∀ (i : Nat) (s : Sprite_StateIcon),
    s._iconsSprites.length - i ≤ fuel →
    (removeSurplus fuel i s)._iconsSprites.length
      = if i < s._iconsSprites.length then i + (s._iconsSprites.length - i) / 2
        else s._iconsSprites.length := by
  induction fuel with
  | zero =>
    intro i s h
    have hnot : ¬ i < s._iconsSprites.length := by omega
    simp [removeSurplus, hnot]
  | succ fuel ih =>
    intro i s h
    simp only [removeSurplus]
    by_cases hlt : i < s._iconsSprites.length
    · simp only [hlt, if_true]
      have hlen := removeIcon_length s i hlt
      rw [ih (i + 1) _ (by rw [hlen]; omega), hlen]
      split_ifs <;> omega
    · simp [hlt]

/-- After `setupRingIcon` there are as many icon sprites as icons, plus half
of the surplus (rounded down) of the sprites there were before. -/
theorem setupRingIcon_length (s : Sprite_StateIcon) :
    s.setupRingIcon._iconsSprites.length
      = s._icons.length + (s._iconsSprites.length - s._icons.length) / 2 := by
  have hicons : ∀ (icons : List Int) (index : Nat) (t : Sprite_StateIcon),
      (setupIcons icons index t)._icons = t._icons := by
    intro icons
    induction icons with
    | nil => intro index t; rfl
    | cons icon icons ih =>
      intro index t
      simp only [setupIcons]
      rw [ih]
      have h1 : ∀ (u : Sprite_StateIcon) (k : Nat) (c : Int),
          (u.setIconIndex k c)._icons = u._icons := by
        intro u k c
        unfold setIconIndex
        split <;> rfl
      rw [h1]
      split_ifs <;> rfl
  have hlen := setupIcons_length s._icons 0 s (Nat.zero_le _)
  unfold setupRingIcon
  simp only
  rw [removeSurplus_length _ _ _ (by omega), hicons, hlen]
  split_ifs <;> omega

end Sprite_StateIcon

/-- C26: three icon sprites show the icons 1, 2 and 3 and the icon list shrinks
to `[1]`.  `setupRingIcon` removes the second sprite only: two icon sprites
(and two children) remain for one icon, the surplus one still showing icon 3. -/
theorem setupRingIcon_keeps_surplus_sprite :
    shrunkIcons._icons.length = 1 ∧
    shrunkIcons.setupRingIcon._iconsSprites = [⟨0, 1⟩, ⟨2, 3⟩] ∧
    shrunkIcons.setupRingIcon._iconsSprites.length = 2 ∧
    shrunkIcons.setupRingIcon.children = [0, 2] ∧
    shrunkIcons.setupRingIcon._iconsSprites.length ≠ shrunkIcons.setupRingIcon._icons.length := by
  decide

end StateRingIcon
